import Mathlib

/-!
Verification of the HCA entry-sheet validation/repair pipeline
(`hca-validation-tools`), shallowly embedded from the Python sources:

  * `hca_validation/entry_sheet_validator/validate_sheet.py`
  * `hca_validation/entry_sheet_validator/find_fixes.py`
  * `hca_validation/entry_sheet_validator/apply_fixes.py`
  * `hca_validation/entry_sheet_validator/process_sheet.py` (shared snapshot)
  * `hca_validation/validator/validator.py` (shared snapshot)
  * `hca_validation/schema_utils/schema_utils.py`

Python dynamic values appearing in spreadsheet cells are modelled by `PyVal`;
exceptions are modelled by `Except String`; external collaborators (the
LinkML schema view, the pydantic validation engine, the Google Sheets
reader/writer) are modelled as explicit parameters.
-/

namespace HcaValidation

/-- A Python value as it occurs in a (raw or normalized) spreadsheet cell:
`None`/NaN, a string, an integer, or a list of values. -/
inductive PyVal where
  | none : PyVal
  | str : String → PyVal
  | int : Int → PyVal
  | list : List PyVal → PyVal

mutual

/-- Boolean equality on `PyVal` (Python `==` on the values the pipeline
produces). -/
def PyVal.beq : PyVal → PyVal → Bool
  | .none, .none => true
  | .str a, .str b => a == b
  | .int a, .int b => a == b
  | .list as, .list bs => PyVal.beqList as bs
  | _, _ => false

/-- Boolean equality on lists of `PyVal`. -/
def PyVal.beqList : List PyVal → List PyVal → Bool
  | [], [] => true
  | a :: as, b :: bs => PyVal.beq a b && PyVal.beqList as bs
  | _, _ => false

end

mutual

theorem PyVal.eq_of_beq : ∀ a b : PyVal, PyVal.beq a b = true → a = b
  | .none, .none, _ => rfl
  | .str a, .str b, h => by
    simp only [PyVal.beq, beq_iff_eq] at h; exact congrArg PyVal.str h
  | .int a, .int b, h => by
    simp only [PyVal.beq, beq_iff_eq] at h; exact congrArg PyVal.int h
  | .list as, .list bs, h =>
    congrArg PyVal.list (PyVal.eqList_of_beqList as bs (by
      simpa only [PyVal.beq] using h))
  | .none, .str _, h => by simp [PyVal.beq] at h
  | .none, .int _, h => by simp [PyVal.beq] at h
  | .none, .list _, h => by simp [PyVal.beq] at h
  | .str _, .none, h => by simp [PyVal.beq] at h
  | .str _, .int _, h => by simp [PyVal.beq] at h
  | .str _, .list _, h => by simp [PyVal.beq] at h
  | .int _, .none, h => by simp [PyVal.beq] at h
  | .int _, .str _, h => by simp [PyVal.beq] at h
  | .int _, .list _, h => by simp [PyVal.beq] at h
  | .list _, .none, h => by simp [PyVal.beq] at h
  | .list _, .str _, h => by simp [PyVal.beq] at h
  | .list _, .int _, h => by simp [PyVal.beq] at h

theorem PyVal.eqList_of_beqList :
    ∀ as bs : List PyVal, PyVal.beqList as bs = true → as = bs
  | [], [], _ => rfl
  | a :: as, b :: bs, h => by
    simp only [PyVal.beqList, Bool.and_eq_true] at h
    rw [PyVal.eq_of_beq a b h.1, PyVal.eqList_of_beqList as bs h.2]
  | [], _ :: _, h => by simp [PyVal.beqList] at h
  | _ :: _, [], h => by simp [PyVal.beqList] at h

end

mutual

theorem PyVal.beq_refl : ∀ a : PyVal, PyVal.beq a a = true
  | .none => rfl
  | .str a => by simp [PyVal.beq]
  | .int a => by simp [PyVal.beq]
  | .list as => by
    simpa only [PyVal.beq] using PyVal.beqList_refl as

theorem PyVal.beqList_refl : ∀ as : List PyVal, PyVal.beqList as as = true
  | [] => rfl
  | a :: as => by
    simp only [PyVal.beqList, Bool.and_eq_true]
    exact ⟨PyVal.beq_refl a, PyVal.beqList_refl as⟩

end

instance : DecidableEq PyVal := fun a b =>
  if h : PyVal.beq a b = true then isTrue (PyVal.eq_of_beq a b h)
  else isFalse (fun he => h (he ▸ PyVal.beq_refl a))

instance : BEq PyVal := ⟨PyVal.beq⟩

instance {ε α : Type} [DecidableEq ε] [DecidableEq α] :
    DecidableEq (Except ε α) := fun a b =>
  match a, b with
  | .ok x, .ok y =>
    if h : x = y then isTrue (by rw [h]) else isFalse (by simp [h])
  | .error e, .error f =>
    if h : e = f then isTrue (by rw [h]) else isFalse (by simp [h])
  | .ok _, .error _ => isFalse (by simp)
  | .error _, .ok _ => isFalse (by simp)

/-- Python whitespace characters recognized by `str.strip()` (ASCII subset). -/
def isPySpace (c : Char) : Bool :=
  c = ' ' || c = '\t' || c = '\n' || c = '\r' || c = '\x0b' || c = '\x0c'

/-- Python `str.strip()` with no arguments: remove leading and trailing
whitespace. -/
def pyStrip (s : String) : String :=
  String.mk (((s.data.dropWhile isPySpace).reverse.dropWhile isPySpace).reverse)

/-- Python `str()` / f-string rendering of a `PyVal`, used when values are
interpolated into messages (`str(None) = "None"`, lists use `repr`). -/
def pyFormat : PyVal → String
  | .none => "None"
  | .str s => s
  | .int n => toString n
  | .list xs => "[" ++ String.intercalate ", " (xs.map fun v =>
      match v with
      | .str s => "\x27" ++ s ++ "\x27"
      | .int n => toString n
      | .none => "None"
      | .list _ => "..."
    ) ++ "]"

/-- Split a character list on a separator character (Python `str.split(sep)`
semantics: `"" ↦ [""]`, separators at the ends produce empty pieces). -/
def splitOnChar (sep : Char) (cs : List Char) : List (List Char) :=
  match cs with
  | [] => [[]]
  | c :: rest =>
    let parts := splitOnChar sep rest
    if c = sep then [] :: parts
    else
      match parts with
      | [] => [[c]]
      | p :: ps => (c :: p) :: ps

/-- The integer pattern of `normalize_dataframe_values`:
`^-?(?:\d+|\d{1,3}(?:,\d{3})+)$` — an optional leading minus sign, then
either one-or-more digits with no separators, or 1–3 digits followed by one
or more comma-separated groups of exactly 3 digits. -/
def intReMatches (s : String) : Bool :=
  let cs := s.data
  let body := if cs.head? = some '-' then cs.drop 1 else cs
  match splitOnChar ',' body with
  | [p] => !p.isEmpty && p.all Char.isDigit
  | p :: rest =>
      (1 ≤ p.length && p.length ≤ 3 && p.all Char.isDigit)
      && rest.all (fun q => q.length = 3 && q.all Char.isDigit)
  | [] => false

/-- Python `value.replace(",", "")`. -/
def stripCommas (s : String) : String :=
  String.mk (s.data.filter (fun c => c ≠ ','))

/-- Decimal value of a digit sequence. -/
def digitsToNat (cs : List Char) : Nat :=
  cs.foldl (fun acc c => acc * 10 + (c.toNat - 48)) 0

/-- Python `int(...)` on an optionally-signed decimal string. -/
def pyIntOfString (s : String) : Int :=
  match s.data with
  | '-' :: rest => -(digitsToNat rest : Int)
  | cs => (digitsToNat cs : Int)

/-- `parse_int` from `normalize_dataframe_values`: if the value matches the
integer pattern, parse it to an integer with commas stripped; otherwise
return the original string unchanged. -/
def parse_int (s : String) : PyVal :=
  if intReMatches s then .int (pyIntOfString (stripCommas s))
  else .str s

/-- Schema slot information relevant to normalization: the slot's declared
range and whether it is multivalued (from `schemaview.class_induced_slots`). -/
structure SlotInfo where
  range : String
  multivalued : Bool
deriving DecidableEq

/-- A schema view restricted to what normalization needs: induced slot
definitions of a class, by class name and slot name. -/
abbrev SlotMap := String → Option SlotInfo

/-- `parse_list` from `normalize_dataframe_values`: split the value on `;`,
strip each piece, and parse each piece with the item parser; a blank value
yields the empty list. -/
def parse_list (parseItem : String → PyVal) (s : String) : PyVal :=
  if pyStrip s = "" then .list []
  else .list ((splitOnChar ';' s.data).map fun item =>
    parseItem (pyStrip (String.mk item)))

/-- The scalar parser chosen by `map_column`: `parse_int` when the slot is
present with range `integer`, identity (as a string) otherwise. -/
def scalarParseOf : Option SlotInfo → String → PyVal
  | some sl => if sl.range = "integer" then parse_int else PyVal.str
  | Option.none => PyVal.str

/-- Whether the column's slot is declared multivalued (`slot is not None and
slot.multivalued`). -/
def isMultivalued : Option SlotInfo → Bool
  | some sl => sl.multivalued
  | Option.none => false

/-- `parse_value` of `map_column` applied to a non-blank string: the list
parser for multivalued slots, the scalar parser otherwise. -/
def normalizeStrValue (slot : Option SlotInfo) (s : String) : PyVal :=
  if isMultivalued slot then parse_list (scalarParseOf slot) s
  else scalarParseOf slot s

/-- The per-cell transformation of `map_column` inside
`normalize_dataframe_values`, applied to one Python value of the column.
A whitespace-only string becomes `None`; a non-blank string is parsed
according to the slot (integer scalar, multivalued list, or passthrough).
Any non-string value raises `AttributeError` (`value.strip()` on
`None`/`int`/`list`), modelled as `Except.error`. -/
def normalizeCell (slot : Option SlotInfo) : PyVal → Except String PyVal
  | .str s =>
    if pyStrip s = "" then .ok .none
    else .ok (normalizeStrValue slot s)
  | .none => .error "AttributeError: NoneType object has no attribute strip"
  | .int _ => .error "AttributeError: int object has no attribute strip"
  | .list _ => .error "AttributeError: list object has no attribute strip"

/-- Normalize one column (the `pd.Series` comprehension in `map_column`). -/
def normalizeColumn (slot : Option SlotInfo) (cells : List PyVal) :
    Except String (List PyVal) :=
  cells.mapM (normalizeCell slot)

/-- A column-oriented dataframe: column name paired with that column's cells
(all columns have the same length in a well-formed frame). -/
abbrev ColsDF := List (String × List PyVal)

/-- `normalize_dataframe_values`: drop columns with empty/whitespace-only
names, and map every remaining column cell-wise per the schema slots of the
given class (here the class's induced slots are supplied as `slots`). -/
def normalize_dataframe_values (slots : SlotMap) (df : ColsDF) :
    Except String ColsDF :=
  (df.filter (fun c => c.1 ≠ "" && pyStrip c.1 ≠ "")).mapM
    (fun c => (normalizeColumn (slots c.1) c.2).map (fun cells => (c.1, cells)))

/-! ### Generic lemmas about `mapM` over `Except` -/

theorem exceptMapM_ok_forall₂ {α β : Type} (g : α → Except String β) :
    ∀ (l : List α) (l' : List β), l.mapM g = .ok l' →
      List.Forall₂ (fun a b => g a = .ok b) l l' := by
  intro l
  induction l with
  | nil => intro l' h; simp only [List.mapM_nil] at h; cases h; exact List.Forall₂.nil
  | cons a as ih =>
    intro l' h
    rw [List.mapM_cons] at h
    cases hga : g a with
    | error e => rw [hga] at h; simp [Bind.bind, Except.bind] at h
    | ok b =>
      rw [hga] at h
      cases hmas : as.mapM g with
      | error e => rw [hmas] at h; simp [Bind.bind, Except.bind] at h
      | ok bs =>
        rw [hmas] at h
        simp only [Bind.bind, Except.bind, pure, Except.pure] at h
        cases h
        exact List.Forall₂.cons hga (ih bs hmas)

theorem exceptMapM_ok_of_forall₂ {α β : Type} (g : α → Except String β) :
    ∀ (l : List α) (l' : List β),
      List.Forall₂ (fun a b => g a = .ok b) l l' → l.mapM g = .ok l' := by
  intro l l' h
  induction h with
  | nil => rfl
  | cons hab _ ih =>
    rw [List.mapM_cons]
    simp only [hab, ih, Bind.bind, Except.bind, pure, Except.pure]

theorem forall₂_mem_right {α β : Type} {r : α → β → Prop} :
    ∀ {l : List α} {l' : List β}, List.Forall₂ r l l' →
      ∀ b ∈ l', ∃ a ∈ l, r a b := by
  intro l l' h
  induction h with
  | nil => intro b hb; cases hb
  | cons hab _ ih =>
    intro b hb
    rcases List.mem_cons.mp hb with rfl | hb
    · exact ⟨_, List.mem_cons_self _ _, hab⟩
    · obtain ⟨a, ha, har⟩ := ih b hb
      exact ⟨a, List.mem_cons_of_mem _ ha, har⟩

/-! ### Re-normalization behavior (claim C2) -/

theorem normalizeStrValue_str {slot : Option SlotInfo} {s t : String}
    (h : normalizeStrValue slot s = .str t) : t = s := by
  unfold normalizeStrValue at h
  by_cases hm : isMultivalued slot
  · rw [if_pos hm] at h
    unfold parse_list at h
    split at h <;> simp at h
  · rw [if_neg hm] at h
    cases slot with
    | none => simp [scalarParseOf] at h; exact h.symm
    | some sl =>
      simp only [scalarParseOf] at h
      by_cases hr : sl.range = "integer"
      · rw [if_pos hr] at h
        unfold parse_int at h
        split at h
        · simp at h
        · simp at h; exact h.symm
      · rw [if_neg hr] at h
        simp at h
        exact h.symm

theorem normalizeCell_str_fixpoint (slot : Option SlotInfo) (v : PyVal) (t : String)
    (h : normalizeCell slot v = .ok (.str t)) :
    normalizeCell slot (.str t) = .ok (.str t) := by
  cases v with
  | none => simp [normalizeCell] at h
  | int n => simp [normalizeCell] at h
  | list xs => simp [normalizeCell] at h
  | str s =>
    simp only [normalizeCell] at h ⊢
    by_cases hs : pyStrip s = ""
    · rw [if_pos hs] at h; simp at h
    · rw [if_neg hs] at h
      simp only [Except.ok.injEq] at h
      obtain rfl : t = s := normalizeStrValue_str h
      rw [if_neg hs, h]

theorem normalizeColumn_fixpoint (slot : Option SlotInfo)
    (cells cells' : List PyVal)
    (h : normalizeColumn slot cells = .ok cells')
    (hstr : ∀ v ∈ cells', ∃ s, v = PyVal.str s) :
    normalizeColumn slot cells' = .ok cells' := by
  unfold normalizeColumn at h ⊢
  have h₂ := exceptMapM_ok_forall₂ (normalizeCell slot) cells cells' h
  apply exceptMapM_ok_of_forall₂
  rw [List.forall₂_same]
  intro b hb
  obtain ⟨s, rfl⟩ := hstr b hb
  obtain ⟨a, _, hab⟩ := forall₂_mem_right h₂ _ hb
  exact normalizeCell_str_fixpoint slot a s hab

/-- C2. The claim asserts that re-running `normalize_dataframe_values` on
already-normalized typed rows is a no-op. This fails: normalized cells can be
`None`, integers, or lists, and on such values the normalizer calls
`value.strip()`, which raises `AttributeError`. Concretely, the raw row
`[""]` normalizes to `[None]`, and re-normalizing `[None]` raises instead of
returning the row unchanged. -/
theorem C2_renormalize_counterexample :
    normalize_dataframe_values (fun _ => Option.none) [("c", [.str ""])]
      = .ok [("c", [PyVal.none])] ∧
    normalize_dataframe_values (fun _ => Option.none) [("c", [PyVal.none])]
      ≠ .ok [("c", [PyVal.none])] := by
  constructor
  · decide
  · decide

/-- C2 (amended). Re-normalization is a no-op exactly on the string-valued
part of normalized output: if `normalize_dataframe_values` succeeds and every
cell of its output is a string, running it again on the output returns the
output unchanged. (On output cells that are `None`, integers, or lists, the
normalizer raises `AttributeError` instead.) -/
theorem C2_renormalize_strings (slots : SlotMap) (df df' : ColsDF)
    (h : normalize_dataframe_values slots df = .ok df')
    (hstr : ∀ p ∈ df', ∀ v ∈ p.2, ∃ s, v = PyVal.str s) :
    normalize_dataframe_values slots df' = .ok df' := by
  unfold normalize_dataframe_values at h ⊢
  have h₂ := exceptMapM_ok_forall₂
    (fun c : String × List PyVal =>
      (normalizeColumn (slots c.1) c.2).map (fun cells => (c.1, cells)))
    _ _ h
  have hmem : ∀ p ∈ df', ∃ a, a ∈ df.filter (fun c => c.1 ≠ "" && pyStrip c.1 ≠ "") ∧
      (normalizeColumn (slots a.1) a.2).map (fun cells => (a.1, cells)) = .ok p :=
    fun p hp => (forall₂_mem_right h₂ p hp).imp (fun a ha => ⟨ha.1, ha.2⟩)
  have hname : ∀ p ∈ df', p.1 ≠ "" ∧ pyStrip p.1 ≠ "" := by
    intro p hp
    obtain ⟨a, ha, hga⟩ := hmem p hp
    have hfa := List.of_mem_filter ha
    simp only [Bool.and_eq_true, decide_eq_true_eq] at hfa
    cases hcol : normalizeColumn (slots a.1) a.2 with
    | error e => rw [hcol] at hga; simp [Except.map] at hga
    | ok cells =>
      rw [hcol] at hga
      simp only [Except.map, Except.ok.injEq] at hga
      rw [← hga]
      exact hfa
  have hfilter : df'.filter (fun c => c.1 ≠ "" && pyStrip c.1 ≠ "") = df' := by
    apply List.filter_eq_self.mpr
    intro p hp
    simp only [Bool.and_eq_true, decide_eq_true_eq]
    exact hname p hp
  rw [hfilter]
  apply exceptMapM_ok_of_forall₂
  rw [List.forall₂_same]
  intro p hp
  obtain ⟨a, _, hga⟩ := hmem p hp
  cases hcol : normalizeColumn (slots a.1) a.2 with
  | error e => rw [hcol] at hga; simp [Except.map] at hga
  | ok cells =>
    rw [hcol] at hga
    simp only [Except.map, Except.ok.injEq] at hga
    subst hga
    have := normalizeColumn_fixpoint (slots a.1) a.2 cells hcol
      (fun v hv => hstr _ hp v hv)
    simp only [this, Except.map]

/-- C2 witness: a concrete all-string normalized frame is a fixed point of
the normalizer. -/
theorem C2_renormalize_strings_witness :
    normalize_dataframe_values (fun _ => Option.none) [("a", [PyVal.str "x"])]
      = .ok [("a", [PyVal.str "x"])] :=
  C2_renormalize_strings (fun _ => Option.none) [("a", [PyVal.str "x"])]
    [("a", [PyVal.str "x"])] (by decide)
    (by
      intro p hp v hv
      rcases List.mem_singleton.mp hp with rfl
      rcases List.mem_singleton.mp hv with rfl
      exact ⟨"x", rfl⟩)

/-! ### Integer normalization (claim C6) -/

/-- C6. Counterexample to the claim's trimming: the cell `" 1,234"` is
non-blank and its trimmed value `"1,234"` matches the integer pattern, yet
the code matches the pattern against the untrimmed value and therefore
leaves the cell as the original string instead of the integer `1234`. -/
theorem C6_integer_trim_counterexample :
    pyStrip " 1,234" = "1,234" ∧ intReMatches "1,234" = true ∧
    normalizeCell (some ⟨"integer", false⟩) (.str " 1,234")
      = .ok (.str " 1,234") ∧
    normalizeCell (some ⟨"integer", false⟩) (.str " 1,234")
      ≠ .ok (.int 1234) := by
  refine ⟨by decide, by decide, by decide, by decide⟩

/-- C6 (amended). For a scalar `integer` slot: a whitespace-only or empty
cell yields `null`; a cell matching the integer pattern as-is (optional
leading minus, then digits with no separators or 1–3 digits followed by
comma-separated groups of exactly 3 digits) yields the integer with commas
removed; any other non-blank cell is left as the original string. The
pattern is matched against the raw cell value, not the trimmed one. -/
theorem C6_integer_scalar_normalization (s : String) :
    (pyStrip s = "" →
      normalizeCell (some ⟨"integer", false⟩) (.str s) = .ok .none) ∧
    (pyStrip s ≠ "" → intReMatches s = true →
      normalizeCell (some ⟨"integer", false⟩) (.str s)
        = .ok (.int (pyIntOfString (stripCommas s)))) ∧
    (pyStrip s ≠ "" → intReMatches s = false →
      normalizeCell (some ⟨"integer", false⟩) (.str s) = .ok (.str s)) := by
  refine ⟨fun hs => ?_, fun hs hm => ?_, fun hs hm => ?_⟩
  · simp [normalizeCell, hs]
  · simp [normalizeCell, hs, normalizeStrValue, isMultivalued, scalarParseOf,
      parse_int, hm]
  · simp [normalizeCell, hs, normalizeStrValue, isMultivalued, scalarParseOf,
      parse_int, hm]

/-- C6 witness: the spec's concrete examples, obtained from the amended
theorem: `"1,234"` parses to `1234`, `"-56,789"` to `-56789`, `"56,78"`
stays the string `"56,78"`, and `"   "` becomes `null`. -/
theorem C6_integer_scalar_normalization_witness :
    normalizeCell (some ⟨"integer", false⟩) (.str "1,234") = .ok (.int 1234) ∧
    normalizeCell (some ⟨"integer", false⟩) (.str "-56,789")
      = .ok (.int (-56789)) ∧
    normalizeCell (some ⟨"integer", false⟩) (.str "56,78")
      = .ok (.str "56,78") ∧
    normalizeCell (some ⟨"integer", false⟩) (.str "   ") = .ok .none := by
  refine ⟨?_, ?_, ?_, ?_⟩
  · exact ((C6_integer_scalar_normalization "1,234").2.1 (by decide)
      (by decide)).trans (by decide)
  · exact ((C6_integer_scalar_normalization "-56,789").2.1 (by decide)
      (by decide)).trans (by decide)
  · exact (C6_integer_scalar_normalization "56,78").2.2 (by decide) (by decide)
  · exact (C6_integer_scalar_normalization "   ").1 (by decide)


instance : LawfulBEq PyVal where
  eq_of_beq h := PyVal.eq_of_beq _ _ h
  rfl := PyVal.beq_refl _

/-- One entry of a pydantic `ValidationError`, as consumed by
`handle_validation_error`: optional row index / row id context, a location
path, a message, and the offending input. -/
structure EngineErrorItem where
  ctxRowIndex : Option Nat
  ctxRowId : Option PyVal
  loc : List String
  msg : String
  input : PyVal
deriving DecidableEq

/-- `validate_id_uniqueness` from `validator.py`: with `idName` the
identifier slot of the class, and the dataframe given as 1-based row labels
plus columns, return `none` when the identifier column is absent or no
duplicates exist, else one line error per occurrence of every non-missing
value appearing more than once in the column. -/
def validate_id_uniqueness (idName : String) (labels : List Nat)
    (cols : ColsDF) : Option (List EngineErrorItem) :=
  match List.lookup idName cols with
  | Option.none => Option.none
  | some vals =>
    let dups := (labels.zip vals).filter
      (fun p => !(PyVal.beq p.2 .none) && 1 < vals.count p.2)
    if dups.isEmpty then Option.none
    else some (dups.map (fun p =>
      { ctxRowIndex := some p.1, ctxRowId := some p.2, loc := [idName],
        msg := "Duplicate identifier " ++ pyFormat p.2, input := p.2 }))

theorem countP_eq_one_of_nodup_fst {q : Nat × PyVal → Bool} :
    ∀ (pairs : List (Nat × PyVal)) (i : Nat) (v : PyVal),
      (pairs.map Prod.fst).Nodup → (i, v) ∈ pairs →
      pairs.countP (fun p => decide (p.1 = i) && q p)
        = if q (i, v) then 1 else 0 := by
  intro pairs
  induction pairs with
  | nil => intro i v _ hm; cases hm
  | cons a rest ih =>
    intro i v hnd hm
    rw [List.map_cons] at hnd
    have hnd' := List.nodup_cons.mp hnd
    rcases List.mem_cons.mp hm with rfl | hm'
    · rw [List.countP_cons]
      simp only [decide_eq_true_eq]
      have hzero : rest.countP (fun p => decide (p.1 = i) && q p) = 0 := by
        apply List.countP_eq_zero.mpr
        intro p hp
        simp only [Bool.and_eq_true, decide_eq_true_eq, not_and]
        intro hpi
        have hmem : p.1 ∈ rest.map Prod.fst := List.mem_map_of_mem Prod.fst hp
        rw [hpi] at hmem
        exact absurd hmem hnd'.1
      rw [hzero]
      by_cases hq : q (i, v)
      · simp [hq]
      · simp [hq]
    · rw [List.countP_cons]
      have hne : a.1 ≠ i := by
        intro he
        exact hnd'.1 (he ▸ List.mem_map_of_mem Prod.fst hm')
      rw [ih i v hnd'.2 hm']
      simp [hne]


theorem mem_map_fst_zip :
    ∀ {labels : List Nat} {vals : List PyVal} {i : Nat},
      i ∈ (labels.zip vals).map Prod.fst → i ∈ labels := by
  intro labels
  induction labels with
  | nil => intro vals i h; simp [List.zip] at h
  | cons l rest ih =>
    intro vals i h
    cases vals with
    | nil => simp [List.zip] at h
    | cons v vs =>
      simp only [List.zip_cons_cons, List.map_cons, List.mem_cons] at h
      rcases h with rfl | h
      · exact List.mem_cons_self _ _
      · exact List.mem_cons_of_mem _ (ih h)

theorem nodup_map_fst_zip {labels : List Nat} {vals : List PyVal}
    (h : labels.Nodup) : ((labels.zip vals).map Prod.fst).Nodup := by
  induction labels generalizing vals with
  | nil => simp [List.zip]
  | cons l rest ih =>
    cases vals with
    | nil => simp [List.zip]
    | cons v vs =>
      have h' := List.nodup_cons.mp h
      simp only [List.zip_cons_cons, List.map_cons, List.nodup_cons]
      exact ⟨fun hm => h'.1 (mem_map_fst_zip hm), ih h'.2⟩

/-- C4. For an entity type's identifier column: if the column is absent, no
uniqueness errors are emitted; otherwise the check emits exactly one error —
with message `Duplicate identifier <value>`, located at the identifier
column, carrying the offending value — for every occurrence (including the
first) of every non-missing value appearing more than once, and no error for
missing values or values occurring exactly once. -/
theorem C4_uniqueness_check (idName : String) (labels : List Nat)
    (cols : ColsDF) (hnd : labels.Nodup) :
    (List.lookup idName cols = Option.none →
      validate_id_uniqueness idName labels cols = Option.none) ∧
    (∀ vals, List.lookup idName cols = some vals →
      (∀ i v, (i, v) ∈ labels.zip vals →
        ((validate_id_uniqueness idName labels cols).getD []).countP
            (fun e => decide (e.ctxRowIndex = some i))
          = if v ≠ PyVal.none ∧ 1 < vals.count v then 1 else 0) ∧
      (∀ e ∈ (validate_id_uniqueness idName labels cols).getD [],
        ∃ p ∈ labels.zip vals, p.2 ≠ PyVal.none ∧ 1 < vals.count p.2 ∧
          e = { ctxRowIndex := some p.1, ctxRowId := some p.2, loc := [idName],
                msg := "Duplicate identifier " ++ pyFormat p.2,
                input := p.2 })) := by
  constructor
  · intro h
    unfold validate_id_uniqueness
    rw [h]
  · intro vals hv
    have hq : ∀ p : Nat × PyVal,
        ((!(PyVal.beq p.2 .none) && decide (1 < vals.count p.2)) = true)
          ↔ (p.2 ≠ PyVal.none ∧ 1 < vals.count p.2) := by
      intro p
      simp only [Bool.and_eq_true, Bool.not_eq_true', decide_eq_true_eq]
      constructor
      · rintro ⟨h1, h2⟩
        refine ⟨fun he => ?_, h2⟩
        rw [he] at h1
        exact Bool.noConfusion ((PyVal.beq_refl PyVal.none).symm.trans h1)
      · rintro ⟨h1, h2⟩
        refine ⟨?_, h2⟩
        cases hb : PyVal.beq p.2 .none
        · rfl
        · exact absurd (PyVal.eq_of_beq _ _ hb) h1
    constructor
    · intro i v hm
      unfold validate_id_uniqueness
      rw [hv]
      simp only
      by_cases hemp :
          ((labels.zip vals).filter
            (fun p => !(PyVal.beq p.2 .none) && decide (1 < vals.count p.2))).isEmpty
      · rw [if_pos hemp]
        simp only [Option.getD_none, List.countP_nil]
        have hnil := List.isEmpty_iff.mp hemp
        have : ¬(v ≠ PyVal.none ∧ 1 < vals.count v) := by
          intro hcond
          have : (i, v) ∈ (labels.zip vals).filter
              (fun p => !(PyVal.beq p.2 .none) && decide (1 < vals.count p.2)) := by
            apply List.mem_filter.mpr
            exact ⟨hm, (hq (i, v)).mpr hcond⟩
          rw [hnil] at this
          cases this
        rw [if_neg this]
      · rw [if_neg hemp]
        simp only [Option.getD_some]
        rw [List.countP_map]
        have hcomp : ∀ p : Nat × PyVal,
            ((fun e : EngineErrorItem => decide (e.ctxRowIndex = some i)) ∘
              (fun p : Nat × PyVal =>
                ({ ctxRowIndex := some p.1, ctxRowId := some p.2, loc := [idName],
                   msg := "Duplicate identifier " ++ pyFormat p.2,
                   input := p.2 } : EngineErrorItem))) p
            = decide (p.1 = i) := by
          intro p
          simp
        rw [List.countP_congr (fun p _ => by rw [hcomp p])]
        rw [List.countP_filter]
        rw [countP_eq_one_of_nodup_fst (labels.zip vals) i v
          (nodup_map_fst_zip hnd) hm]
        by_cases hcond : v ≠ PyVal.none ∧ 1 < vals.count v
        · rw [if_pos ((hq (i, v)).mpr hcond), if_pos hcond]
        · rw [if_neg (fun hx => hcond ((hq (i, v)).mp hx)), if_neg hcond]
    · intro e he
      unfold validate_id_uniqueness at he
      rw [hv] at he
      simp only at he
      by_cases hemp :
          ((labels.zip vals).filter
            (fun p => !(PyVal.beq p.2 .none) && decide (1 < vals.count p.2))).isEmpty
      · rw [if_pos hemp] at he
        cases he
      · rw [if_neg hemp] at he
        simp only [Option.getD_some] at he
        obtain ⟨p, hp, rfl⟩ := List.mem_map.mp he
        have hp' := List.mem_filter.mp hp
        exact ⟨p, hp'.1, ((hq p).mp hp'.2).1, ((hq p).mp hp'.2).2, rfl⟩

/-- C4 witness: for identifier values
`[None, "foo", "bar", "foo", None, "baz", "baz", "baz"]` exactly 5 errors
are emitted, and row 2's `"foo"` occurrence is reported exactly once. -/
theorem C4_uniqueness_check_witness :
    ((validate_id_uniqueness "donor_id" [1, 2, 3, 4, 5, 6, 7, 8]
        [("donor_id",
          [PyVal.none, .str "foo", .str "bar", .str "foo", PyVal.none,
           .str "baz", .str "baz", .str "baz"])]).getD []).length = 5 ∧
    ((validate_id_uniqueness "donor_id" [1, 2, 3, 4, 5, 6, 7, 8]
        [("donor_id",
          [PyVal.none, .str "foo", .str "bar", .str "foo", PyVal.none,
           .str "baz", .str "baz", .str "baz"])]).getD []).countP
        (fun e => decide (e.ctxRowIndex = some 2)) = 1 := by
  constructor
  · decide
  · have h := C4_uniqueness_check "donor_id" [1, 2, 3, 4, 5, 6, 7, 8]
      [("donor_id",
        [PyVal.none, .str "foo", .str "bar", .str "foo", PyVal.none,
         .str "baz", .str "baz", .str "baz"])] (by decide)
    have h2 := (h.2 [PyVal.none, .str "foo", .str "bar", .str "foo", PyVal.none,
        .str "baz", .str "baz", .str "baz"] rfl).1 2 (.str "foo") (by decide)
    have hcond : (PyVal.str "foo" ≠ PyVal.none ∧
        1 < List.count (PyVal.str "foo")
          [PyVal.none, .str "foo", .str "bar", .str "foo", PyVal.none,
           .str "baz", .str "baz", .str "baz"]) := by decide
    rw [if_pos hcond] at h2
    exact h2


/-- A pandas dataframe as used by the cross-row checkers: 1-based row labels
plus named columns (each column aligned with the labels). -/
structure PandasDF where
  labels : List Nat
  cols : ColsDF
deriving DecidableEq

/-- Column access / membership (`name in data`, `data[name]`). -/
def dfColumn (df : PandasDF) (name : String) : Option (List PyVal) :=
  List.lookup name df.cols

/-- The per-foreign-key-field body of `validate_referential_integrity`:
`entityTypeOf` models `get_class_entity_type`, `idOf` models
`get_class_identifier_name` (both resolved against the external schema), and
`dataBy` is `data_by_entity_type`. If the foreign-key column is absent the
field contributes no errors; otherwise each row whose non-missing
foreign-key value has no match in the referenced identifier column (or every
row with a non-missing value, when the referenced identifier column is
absent) contributes one line error. -/
def fieldRefErrors (entityTypeOf idOf : String → String)
    (dataBy : String → PandasDF) (className fkSlot fkClass : String) :
    List EngineErrorItem :=
  let data := dataBy (entityTypeOf className)
  let idName := idOf className
  match dfColumn data fkSlot with
  | Option.none => []
  | some fkCells =>
    let fkEt := entityTypeOf fkClass
    let fdata := dataBy fkEt
    let fIdName := idOf fkClass
    let missingPred : PyVal → Bool := fun v =>
      !(PyVal.beq v .none) &&
        (match dfColumn fdata fIdName with
         | Option.none => true
         | some fvals => !(fvals.any (fun w => PyVal.beq w v)))
    let idVals : List PyVal :=
      match dfColumn data idName with
      | some cells => cells
      | Option.none => List.replicate fkCells.length PyVal.none
    let rows := data.labels.zip (fkCells.zip idVals)
    (rows.filter (fun r => missingPred r.2.1)).map (fun r =>
      { ctxRowIndex := some r.1, ctxRowId := some r.2.2, loc := [fkSlot],
        msg := "Referenced " ++ fkEt ++ " with ID " ++ pyFormat r.2.1
          ++ " doesn\x27t exist",
        input := r.2.1 })

/-- `validate_referential_integrity` from `validator.py` (shared snapshot):
accumulate line errors over the class's foreign-key fields (given by
`get_class_foreign_keys` against the external schema), returning `none` when
no errors accumulated. -/
def validate_referential_integrity (entityTypeOf idOf : String → String)
    (dataBy : String → PandasDF) (fks : List (String × String))
    (className : String) : Option (List EngineErrorItem) :=
  let lineErrors := fks.flatMap
    (fun fk => fieldRefErrors entityTypeOf idOf dataBy className fk.1 fk.2)
  if lineErrors.isEmpty then Option.none else some lineErrors

/-- C5. For every foreign-key field of an entity type: the field contributes
no errors when its column is absent from the dependent table; when the
referenced table lacks its identifier column, every row with a non-missing
foreign-key value is reported with a `Referenced <type> with ID <value>
doesn't exist` error; otherwise exactly the rows whose non-missing value is
absent from the referenced identifier column are reported; and fields are
evaluated independently (errors concatenate over the foreign-key list). -/
theorem C5_referential_integrity (entityTypeOf idOf : String → String)
    (dataBy : String → PandasDF) (className fkSlot fkClass : String) :
    (dfColumn (dataBy (entityTypeOf className)) fkSlot = Option.none →
      fieldRefErrors entityTypeOf idOf dataBy className fkSlot fkClass = []) ∧
    (∀ fkCells,
      dfColumn (dataBy (entityTypeOf className)) fkSlot = some fkCells →
      dfColumn (dataBy (entityTypeOf fkClass)) (idOf fkClass) = Option.none →
      fieldRefErrors entityTypeOf idOf dataBy className fkSlot fkClass
        = (((dataBy (entityTypeOf className)).labels.zip
              (fkCells.zip
                (match dfColumn (dataBy (entityTypeOf className))
                    (idOf className) with
                 | some cells => cells
                 | Option.none => List.replicate fkCells.length PyVal.none))).filter
            (fun r => decide (r.2.1 ≠ PyVal.none))).map (fun r =>
            { ctxRowIndex := some r.1, ctxRowId := some r.2.2, loc := [fkSlot],
              msg := "Referenced " ++ entityTypeOf fkClass ++ " with ID "
                ++ pyFormat r.2.1 ++ " doesn\x27t exist",
              input := r.2.1 })) ∧
    (∀ fkCells fvals,
      dfColumn (dataBy (entityTypeOf className)) fkSlot = some fkCells →
      dfColumn (dataBy (entityTypeOf fkClass)) (idOf fkClass) = some fvals →
      fieldRefErrors entityTypeOf idOf dataBy className fkSlot fkClass
        = (((dataBy (entityTypeOf className)).labels.zip
              (fkCells.zip
                (match dfColumn (dataBy (entityTypeOf className))
                    (idOf className) with
                 | some cells => cells
                 | Option.none => List.replicate fkCells.length PyVal.none))).filter
            (fun r => decide (r.2.1 ≠ PyVal.none ∧ r.2.1 ∉ fvals))).map (fun r =>
            { ctxRowIndex := some r.1, ctxRowId := some r.2.2, loc := [fkSlot],
              msg := "Referenced " ++ entityTypeOf fkClass ++ " with ID "
                ++ pyFormat r.2.1 ++ " doesn\x27t exist",
              input := r.2.1 })) ∧
    (∀ fks₁ fks₂ : List (String × String),
      (fks₁ ++ fks₂).flatMap
          (fun fk => fieldRefErrors entityTypeOf idOf dataBy className fk.1 fk.2)
        = fks₁.flatMap
            (fun fk => fieldRefErrors entityTypeOf idOf dataBy className fk.1 fk.2)
          ++ fks₂.flatMap
            (fun fk => fieldRefErrors entityTypeOf idOf dataBy className fk.1 fk.2)) := by
  refine ⟨?_, ?_, ?_, ?_⟩
  · intro h
    simp only [fieldRefErrors, h]
  · intro fkCells hfk hfid
    simp only [fieldRefErrors, hfk, hfid]
    congr 1
    apply List.filter_congr
    intro r _
    cases hb : PyVal.beq r.2.1 PyVal.none
    · have hne : r.2.1 ≠ PyVal.none := fun he => by
        rw [he] at hb
        exact Bool.noConfusion ((PyVal.beq_refl PyVal.none).symm.trans hb)
      simp [hne]
    · have heq := PyVal.eq_of_beq _ _ hb
      simp [heq]
  · intro fkCells fvals hfk hfid
    simp only [fieldRefErrors, hfk, hfid]
    congr 1
    apply List.filter_congr
    intro r _
    cases hb : PyVal.beq r.2.1 PyVal.none
    · have hne : r.2.1 ≠ PyVal.none := fun he => by
        rw [he] at hb
        exact Bool.noConfusion ((PyVal.beq_refl PyVal.none).symm.trans hb)
      cases hany : fvals.any (fun w => PyVal.beq w r.2.1)
      · have hnm : r.2.1 ∉ fvals := fun hmem => by
          have hx : fvals.any (fun w => PyVal.beq w r.2.1) = true :=
            List.any_eq_true.mpr ⟨r.2.1, hmem, PyVal.beq_refl _⟩
          rw [hany] at hx
          exact Bool.noConfusion hx
        simp [hne, hnm]
      · obtain ⟨w, hw, hbeq⟩ := List.any_eq_true.mp hany
        obtain rfl := PyVal.eq_of_beq _ _ hbeq
        simp [hw]
    · have heq := PyVal.eq_of_beq _ _ hb
      simp [heq]
  · intro fks₁ fks₂
    simp

/-- C5 witness: a concrete sample table referencing donors: with donor ids
`["d1"]` present, the sample rows with donor references `"d1"`, missing, and
`"d2"` produce exactly one error, for the `"d2"` row; with the donor
identifier column absent, both non-missing references are reported. -/
theorem C5_referential_integrity_witness :
    fieldRefErrors
        (fun c => if c = "Sample" then "sample" else "donor")
        (fun c => if c = "Sample" then "sample_id" else "donor_id")
        (fun et =>
          if et = "sample" then
            ⟨[1, 2, 3],
             [("sample_id", [.str "s1", .str "s2", .str "s3"]),
              ("donor_id", [.str "d1", PyVal.none, .str "d2"])]⟩
          else ⟨[1], [("donor_id", [.str "d1"])]⟩)
        "Sample" "donor_id" "Donor"
      = [{ ctxRowIndex := some 3, ctxRowId := some (.str "s3"),
           loc := ["donor_id"],
           msg := "Referenced donor with ID d2 doesn\x27t exist",
           input := .str "d2" }] ∧
    fieldRefErrors
        (fun c => if c = "Sample" then "sample" else "donor")
        (fun c => if c = "Sample" then "sample_id" else "donor_id")
        (fun et =>
          if et = "sample" then
            ⟨[1, 2, 3],
             [("sample_id", [.str "s1", .str "s2", .str "s3"]),
              ("donor_id", [.str "d1", PyVal.none, .str "d2"])]⟩
          else ⟨[1], [("other", [.str "d1"])]⟩)
        "Sample" "donor_id" "Donor"
      = [{ ctxRowIndex := some 1, ctxRowId := some (.str "s1"),
           loc := ["donor_id"],
           msg := "Referenced donor with ID d1 doesn\x27t exist",
           input := .str "d1" },
         { ctxRowIndex := some 3, ctxRowId := some (.str "s3"),
           loc := ["donor_id"],
           msg := "Referenced donor with ID d2 doesn\x27t exist",
           input := .str "d2" }] := by
  constructor
  · exact ((C5_referential_integrity
      (fun c => if c = "Sample" then "sample" else "donor")
      (fun c => if c = "Sample" then "sample_id" else "donor_id")
      (fun et =>
        if et = "sample" then
          ⟨[1, 2, 3],
           [("sample_id", [.str "s1", .str "s2", .str "s3"]),
            ("donor_id", [.str "d1", PyVal.none, .str "d2"])]⟩
        else ⟨[1], [("donor_id", [.str "d1"])]⟩)
      "Sample" "donor_id" "Donor").2.2.1
      [.str "d1", PyVal.none, .str "d2"] [.str "d1"]
      (by decide) (by decide)).trans (by decide)
  · exact ((C5_referential_integrity
      (fun c => if c = "Sample" then "sample" else "donor")
      (fun c => if c = "Sample" then "sample_id" else "donor_id")
      (fun et =>
        if et = "sample" then
          ⟨[1, 2, 3],
           [("sample_id", [.str "s1", .str "s2", .str "s3"]),
            ("donor_id", [.str "d1", PyVal.none, .str "d2"])]⟩
        else ⟨[1], [("other", [.str "d1"])]⟩)
      "Sample" "donor_id" "Donor").2.1
      [.str "d1", PyVal.none, .str "d2"]
      (by decide) (by decide)).trans (by decide)


/-! ### Data model of `validate_sheet.py` -/

/-- `SpreadsheetMetadata` dataclass. -/
structure SpreadsheetMetadata where
  spreadsheet_title : String
  last_updated_date : String
  last_updated_by : String
  last_updated_email : Option String
  can_edit : Bool
deriving DecidableEq

/-- `WorksheetInfo` dataclass: the worksheet's dataframe (columns plus raw
cell rows aligned with them), the worksheet id, the source column headers,
and the 1-based source row offset. -/
structure WorksheetInfo where
  dataColumns : List String
  dataRows : List (List PyVal)
  worksheet_id : Nat
  source_columns : List String
  source_rows_start_index : Nat
deriving DecidableEq

/-- `gspread.utils.rowcol_to_a1` column letters (1-based, bijective base
26), with structural fuel (the fuel argument strictly bounds the value, so
`colLetters` below always supplies enough). -/
def colLettersAux : Nat → Nat → List Char
  | _, 0 => []
  | 0, _ + 1 => []
  | fuel + 1, c + 1 => colLettersAux fuel (c / 26) ++ [Char.ofNat (65 + c % 26)]

/-- `gspread.utils.rowcol_to_a1` column letters (1-based, bijective base 26). -/
def colLetters (c : Nat) : List Char := colLettersAux c c

/-- `gspread.utils.rowcol_to_a1`. -/
def rowcol_to_a1 (row col : Nat) : String :=
  String.mk (colLetters col) ++ toString row

/-- `WorksheetInfo.get_a1`, with the surrounding `try/except ValueError` of
`handle_validation_error`: locate the column among the source columns (a
missing or absent column name raises `ValueError`, caught to `none`) and
build the A1 reference from the worksheet's row offset. -/
def get_a1 (sheet : WorksheetInfo) (row : Nat) (column : Option String) :
    Option String :=
  match column with
  | Option.none => Option.none
  | some c =>
    match sheet.source_columns.indexOf? c with
    | Option.none => Option.none
    | some i => some (rowcol_to_a1 (sheet.source_rows_start_index + row) (i + 1))

/-- `SpreadsheetInfo` dataclass. -/
structure SpreadsheetInfo where
  spreadsheet_metadata : SpreadsheetMetadata
  worksheets : List WorksheetInfo
deriving DecidableEq

/-- `SheetReadError` exception dataclass. -/
structure SheetReadError where
  error_code : String
  error_message : Option String := Option.none
  spreadsheet_metadata : Option SpreadsheetMetadata := Option.none
  worksheet_id : Option Nat := Option.none
deriving DecidableEq

/-- `SheetErrorInfo` dataclass (one reported validation error). The
`primary_key` field holds a Python value: row-level validation formats it as
`"<field>:<value>"`, while the uniqueness check stores the duplicated value
itself. -/
structure SheetErrorInfo where
  entity_type : Option String
  worksheet_id : Option Nat
  message : String
  row : Option Nat := Option.none
  column : Option String := Option.none
  cell : Option String := Option.none
  primary_key : Option PyVal := Option.none
  input : Option PyVal := Option.none
  input_fix : Option String := Option.none
deriving DecidableEq

/-- `SheetValidationResult` dataclass; the summary is the ordered dict of
per-entity-type counts plus the error count. -/
structure SheetValidationResult where
  successful : Bool
  spreadsheet_metadata : Option SpreadsheetMetadata
  error_code : Option String
  summary : List (String × Option Nat)
  errors : List SheetErrorInfo
deriving DecidableEq

/-- `make_summary_without_entities` from `validate_sheet.py`. -/
def make_summary_without_entities (errorCount : Nat)
    (entityTypes : List String) : List (String × Option Nat) :=
  entityTypes.map (fun t => (t ++ "_count", (Option.none : Option Nat)))
    ++ [("error_count", some errorCount)]

/-- `make_validation_result_for_whole_sheet_error` from `validate_sheet.py`. -/
def make_validation_result_for_whole_sheet_error (sheetId : String)
    (entityTypes : List String) (errorCode : String)
    (errorMessage : Option String)
    (spreadsheetMetadata : Option SpreadsheetMetadata)
    (worksheetId : Option Nat) (entityType : Option String) :
    SheetValidationResult :=
  let errorMsg := errorMessage.getD
    ("Error processing sheet " ++ sheetId ++ " (Error: " ++ errorCode ++ ")")
  { successful := false
    spreadsheet_metadata := spreadsheetMetadata
    error_code := some errorCode
    summary := make_summary_without_entities 1 entityTypes
    errors := [{ entity_type := entityType, worksheet_id := worksheetId,
                 message := errorMsg }] }

/-- `make_read_error_validation_result` from `validate_sheet.py`. -/
def make_read_error_validation_result (sheetId : String)
    (entityTypes : List String) (readError : SheetReadError) :
    SheetValidationResult :=
  let errorMsg := readError.error_message.getD
    ("Could not access or read data from sheet " ++ sheetId ++ " (Error: "
      ++ readError.error_code ++ ")")
  make_validation_result_for_whole_sheet_error sheetId entityTypes
    readError.error_code (some errorMsg) readError.spreadsheet_metadata
    readError.worksheet_id Option.none

/-! ### `find_fixes.py` (claim C8) -/

/-- The module-level `sheet_value_fix_map`: (entity type, slot, bad value)
to corrected value. -/
def sheet_value_fix_map : List ((String × String × String) × String) :=
  [(("donor", "manner_of_death", "not_applicable"), "not applicable"),
   (("sample", "sample_source", "surgical_donor"), "surgical donor"),
   (("sample", "sample_source", "postmortem_donor"), "postmortem donor"),
   (("sample", "sample_source", "living_organ_donor"), "living organ donor"),
   (("sample", "sample_collection_method", "surgical_resection"),
     "surgical resection"),
   (("sample", "sample_collection_method", "blood_draw"), "blood draw"),
   (("sample", "sample_collection_method", "body_fluid"), "body fluid")]

/-- `schema_classes` from `schema_utils.py` (src snapshot): entity type to
bionetwork-specific class names, with a `DEFAULT`. -/
def schema_classes : List (String × List (String × String)) :=
  [("dataset", [("DEFAULT", "Dataset"), ("adipose", "AdiposeDataset"),
                ("gut", "GutDataset")]),
   ("donor", [("DEFAULT", "Donor")]),
   ("sample", [("DEFAULT", "Sample"), ("adipose", "AdiposeSample"),
               ("gut", "GutSample")]),
   ("cell", [("DEFAULT", "Cell")])]

/-- `get_entity_class_name` from `schema_utils.py`: `ValueError` (modelled
as `Except.error`) for an unsupported schema type, else the bionetwork's
class name with the `DEFAULT` fallback. (Every entry of the concrete
`schema_classes` table has a `DEFAULT`, so the `getD ""` fallback for a
missing `DEFAULT` key is unreachable.) -/
def get_entity_class_name (schemaType : String) (bionetwork : Option String) :
    Except String String :=
  match List.lookup schemaType schema_classes with
  | Option.none => .error ("Unsupported schema type: " ++ schemaType)
  | some typeClasses =>
    match bionetwork with
    | some bn =>
      .ok ((List.lookup bn typeClasses).getD
        ((List.lookup "DEFAULT" typeClasses).getD ""))
    | Option.none => .ok ((List.lookup "DEFAULT" typeClasses).getD "")

/-- `get_fixed_value` from `find_fixes.py`: `None` unless the slot is an
attribute of the entity's induced class, else the fix-map lookup. -/
def get_fixed_value (entityType : String) (inducedAttrs : List String)
    (slotName value : String) : Option String :=
  if slotName ∉ inducedAttrs then Option.none
  else List.lookup (entityType, slotName, value) sheet_value_fix_map

/-- `add_fix_to_error_if_available` from `find_fixes.py`: return the error
unchanged unless it has an entity type, a column, and a string input;
otherwise return a copy with `input_fix` set to the fix lookup result
(`inducedAttrsOf` models `schemaview.induced_class(...).attributes`).
`get_entity_class_name` raises for an unknown entity type. -/
def add_fix_to_error_if_available (error : SheetErrorInfo)
    (bionetwork : Option String) (inducedAttrsOf : String → List String) :
    Except String SheetErrorInfo :=
  match error.entity_type, error.column, error.input with
  | some et, some col, some (.str s) =>
    (get_entity_class_name et bionetwork).map (fun className =>
      { error with input_fix := get_fixed_value et (inducedAttrsOf className) col s })
  | _, _, _ => .ok error

/-- `add_fixes_to_errors` from `find_fixes.py`. -/
def add_fixes_to_errors (errors : List SheetErrorInfo)
    (bionetwork : Option String) (inducedAttrsOf : String → List String) :
    Except String (List SheetErrorInfo) :=
  errors.mapM (fun e => add_fix_to_error_if_available e bionetwork inducedAttrsOf)

/-- C8. Counterexample to "on any failure it returns the error unchanged":
when the preconditions hold (entity type, column, string input) but the
lookup fails, the code returns `dataclasses.replace(error, input_fix=None)`,
which clears a pre-existing `input_fix` instead of returning the error
unchanged. -/
theorem C8_fix_resolver_counterexample :
    add_fix_to_error_if_available
        { entity_type := some "donor", worksheet_id := some 0,
          message := "msg", column := some "manner_of_death",
          input := some (.str "zzz"), input_fix := some "stale" }
        Option.none (fun _ => ["manner_of_death"])
      = .ok { entity_type := some "donor", worksheet_id := some 0,
              message := "msg", column := some "manner_of_death",
              input := some (.str "zzz"), input_fix := Option.none } ∧
    add_fix_to_error_if_available
        { entity_type := some "donor", worksheet_id := some 0,
          message := "msg", column := some "manner_of_death",
          input := some (.str "zzz"), input_fix := some "stale" }
        Option.none (fun _ => ["manner_of_death"])
      ≠ .ok { entity_type := some "donor", worksheet_id := some 0,
              message := "msg", column := some "manner_of_death",
              input := some (.str "zzz"), input_fix := some "stale" } := by
  exact ⟨by decide, by decide⟩

/-- C8 (amended). The resolver attempts a lookup only when the error carries
an entity type, a column, and a string-typed input (list- or dict-typed
inputs never reach the lookup and leave the error untouched); the fix value
is non-null only when the column is an attribute of the entity's induced
class. When the preconditions fail the error is returned unchanged; when
they hold, a copy is returned that differs from the original at most in
`input_fix`, which is set to the lookup result — populating it on success
and clearing any pre-existing value on a failed lookup. The original is
never mutated (the embedding is pure; the code builds a new object with
`dataclasses.replace`). -/
theorem C8_fix_resolver (error : SheetErrorInfo) (bionetwork : Option String)
    (inducedAttrsOf : String → List String) :
    (error.entity_type = Option.none ∨ error.column = Option.none ∨
        (∀ s, error.input ≠ some (.str s)) →
      add_fix_to_error_if_available error bionetwork inducedAttrsOf
        = .ok error) ∧
    (∀ et col s className,
      error.entity_type = some et → error.column = some col →
      error.input = some (.str s) →
      get_entity_class_name et bionetwork = .ok className →
      add_fix_to_error_if_available error bionetwork inducedAttrsOf
        = .ok { error with
                input_fix := get_fixed_value et (inducedAttrsOf className) col s }) ∧
    (∀ et col s className,
      error.entity_type = some et → error.column = some col →
      error.input = some (.str s) →
      get_entity_class_name et bionetwork = .ok className →
      col ∉ inducedAttrsOf className →
      add_fix_to_error_if_available error bionetwork inducedAttrsOf
        = .ok { error with input_fix := Option.none }) ∧
    (∀ e', add_fix_to_error_if_available error bionetwork inducedAttrsOf
        = .ok e' →
      e'.entity_type = error.entity_type ∧
      e'.worksheet_id = error.worksheet_id ∧ e'.message = error.message ∧
      e'.row = error.row ∧ e'.column = error.column ∧ e'.cell = error.cell ∧
      e'.primary_key = error.primary_key ∧ e'.input = error.input) := by
  obtain ⟨etv, wid, msgv, rowv, colv, cellv, pkv, inv, fixv⟩ := error
  refine ⟨?_, ?_, ?_, ?_⟩
  · intro h
    rcases etv with _ | et
    · rfl
    rcases colv with _ | col
    · rfl
    rcases inv with _ | v
    · rfl
    rcases v with _ | s | n | xs
    · rfl
    · rcases h with h | h | h
      · cases h
      · cases h
      · exact absurd rfl (h s)
    · rfl
    · rfl
  · intro et col s className het hcol hin hclass
    simp only at het hcol hin
    subst het
    subst hcol
    subst hin
    unfold add_fix_to_error_if_available
    simp only [hclass, Except.map]
  · intro et col s className het hcol hin hclass hattr
    simp only at het hcol hin
    subst het
    subst hcol
    subst hin
    unfold add_fix_to_error_if_available
    simp only [hclass, Except.map, get_fixed_value, if_pos hattr]
  · intro e' h
    rcases etv with _ | et
    · cases h
      exact ⟨rfl, rfl, rfl, rfl, rfl, rfl, rfl, rfl⟩
    rcases colv with _ | col
    · cases h
      exact ⟨rfl, rfl, rfl, rfl, rfl, rfl, rfl, rfl⟩
    rcases inv with _ | v
    · cases h
      exact ⟨rfl, rfl, rfl, rfl, rfl, rfl, rfl, rfl⟩
    rcases v with _ | s | n | xs
    · cases h
      exact ⟨rfl, rfl, rfl, rfl, rfl, rfl, rfl, rfl⟩
    · unfold add_fix_to_error_if_available at h
      dsimp only at h ⊢
      cases hclass : get_entity_class_name et bionetwork with
      | error m =>
        rw [hclass] at h
        simp [Except.map] at h
      | ok cn =>
        rw [hclass] at h
        simp only [Except.map, Except.ok.injEq] at h
        subst h
        exact ⟨rfl, rfl, rfl, rfl, rfl, rfl, rfl, rfl⟩
    · cases h
      exact ⟨rfl, rfl, rfl, rfl, rfl, rfl, rfl, rfl⟩
    · cases h
      exact ⟨rfl, rfl, rfl, rfl, rfl, rfl, rfl, rfl⟩

/-- C8 witness: a matched `(donor, manner_of_death, not_applicable)` error
gets `input_fix = "not applicable"`; a list-typed input is returned
unchanged even though its (entity type, field, value) would otherwise match
the fix table. -/
theorem C8_fix_resolver_witness :
    add_fix_to_error_if_available
        { entity_type := some "donor", worksheet_id := some 0,
          message := "msg", column := some "manner_of_death",
          input := some (.str "not_applicable") }
        Option.none (fun _ => ["manner_of_death"])
      = .ok { entity_type := some "donor", worksheet_id := some 0,
              message := "msg", column := some "manner_of_death",
              input := some (.str "not_applicable"),
              input_fix := some "not applicable" } ∧
    add_fix_to_error_if_available
        { entity_type := some "donor", worksheet_id := some 0,
          message := "msg", column := some "manner_of_death",
          input := some (.list [.str "not_applicable"]) }
        Option.none (fun _ => ["manner_of_death"])
      = .ok { entity_type := some "donor", worksheet_id := some 0,
              message := "msg", column := some "manner_of_death",
              input := some (.list [.str "not_applicable"]) } := by
  constructor
  · exact ((C8_fix_resolver
      { entity_type := some "donor", worksheet_id := some 0,
        message := "msg", column := some "manner_of_death",
        input := some (.str "not_applicable") }
      Option.none (fun _ => ["manner_of_death"])).2.1 "donor"
      "manner_of_death" "not_applicable" "Donor" rfl rfl rfl
      (by decide)).trans (by decide)
  · exact (C8_fix_resolver
      { entity_type := some "donor", worksheet_id := some 0,
        message := "msg", column := some "manner_of_death",
        input := some (.list [.str "not_applicable"]) }
      Option.none (fun _ => ["manner_of_death"])).1
      (Or.inr (Or.inr (fun s h => by cases h)))


/-! ### `apply_fixes.py` (claim C9) -/

/-- `get_fix_value_range`: the gspread value-range dict
`{"range": a1, "values": [[value]]}`. -/
structure ValueRange where
  range : String
  values : List (List String)
deriving DecidableEq

/-- `get_fix_value_range` from `apply_fixes.py`. -/
def get_fix_value_range (a1 : String) (value : String) : ValueRange :=
  { range := a1, values := [[value]] }

/-- `value_ranges[k].append(v)`: append to the bucket of key `k`. -/
def appendToKey (m : List (String × List ValueRange)) (k : String)
    (v : ValueRange) : List (String × List ValueRange) :=
  m.map (fun p => if p.1 = k then (p.1, p.2 ++ [v]) else p)

/-- The loop of `get_fix_value_ranges_by_entity_type`: iterate the errors,
keeping the `cells_with_fixes` set of (entity type, cell) pairs; an error
with an `input_fix`, an entity type, and a cell whose pair is unseen appends
one value range to its entity type's bucket (an entity type missing from the
buckets raises `KeyError`, modelled as `Except.error`). -/
def fixRangesGo : List SheetErrorInfo → List (String × String) →
    List (String × List ValueRange) →
    Except String (List (String × List ValueRange))
  | [], _, acc => .ok acc
  | e :: rest, seen, acc =>
    match e.input_fix, e.entity_type, e.cell with
    | some fix, some et, some cell =>
      if (et, cell) ∈ seen then fixRangesGo rest seen acc
      else
        match List.lookup et acc with
        | Option.none => .error "KeyError"
        | some _ =>
          fixRangesGo rest ((et, cell) :: seen)
            (appendToKey acc et (get_fix_value_range cell fix))
    | _, _, _ => fixRangesGo rest seen acc

/-- `get_fix_value_ranges_by_entity_type` from `apply_fixes.py`. -/
def get_fix_value_ranges_by_entity_type (errors : List SheetErrorInfo)
    (entityTypes : List String) :
    Except String (List (String × List ValueRange)) :=
  fixRangesGo errors [] (entityTypes.map (fun et => (et, [])))

/-- `apply_fixes` from `apply_fixes.py`: build the value ranges, issue one
batch write per entity type with a nonempty bucket (the writes are returned
as an explicit log, worksheet handles being external), and report whether
any write was issued. -/
def apply_fixes (validationResult : SheetValidationResult)
    (entityTypes : List String) :
    Except String (Bool × List (String × List ValueRange)) :=
  (get_fix_value_ranges_by_entity_type validationResult.errors entityTypes).map
    (fun vrs =>
      let writes := vrs.filter (fun p => !p.2.isEmpty)
      (!writes.isEmpty, writes))

/-- The write instructions selected for one entity type: the claim's
"one instruction per error with a non-null `input_fix`, entity type, and
cell, keeping only the first error per (entity type, cell) pair", projected
to the bucket of `et`. -/
def selectFixes (et : String) : List SheetErrorInfo →
    List (String × String) → List (String × String)
  | [], _ => []
  | e :: rest, seen =>
    match e.input_fix, e.entity_type, e.cell with
    | some fix, some et', some cell =>
      if (et', cell) ∈ seen then selectFixes et rest seen
      else if et' = et then
        (cell, fix) :: selectFixes et rest ((et', cell) :: seen)
      else selectFixes et rest ((et', cell) :: seen)
    | _, _, _ => selectFixes et rest seen

theorem lookup_cons_pos {β : Type} (k : String) (b : β)
    (es : List (String × β)) : List.lookup k ((k, b) :: es) = some b := by
  simp [List.lookup]

theorem lookup_cons_neg {β : Type} (a k : String) (h : a ≠ k) (b : β)
    (es : List (String × β)) :
    List.lookup a ((k, b) :: es) = List.lookup a es := by
  have hb : (a == k) = false := beq_eq_false_iff_ne.mpr h
  simp [List.lookup, hb]

theorem lookup_appendToKey (acc : List (String × List ValueRange))
    (k : String) (v : ValueRange) (et : String) :
    List.lookup et (appendToKey acc k v)
      = (List.lookup et acc).map (fun l => if et = k then l ++ [v] else l) := by
  induction acc with
  | nil => rfl
  | cons p rest ih =>
    obtain ⟨k', l'⟩ := p
    simp only [appendToKey, List.map_cons]
    by_cases hk : k' = k
    · rw [if_pos hk]
      by_cases het : et = k'
      · subst het
        subst hk
        rw [lookup_cons_pos, lookup_cons_pos]
        simp
      · rw [lookup_cons_neg et k' het, lookup_cons_neg et k' het]
        exact ih
    · rw [if_neg hk]
      by_cases het : et = k'
      · subst het
        rw [lookup_cons_pos, lookup_cons_pos]
        simp [hk]
      · rw [lookup_cons_neg et k' het, lookup_cons_neg et k' het]
        exact ih

theorem mapfst_appendToKey (acc : List (String × List ValueRange))
    (k : String) (v : ValueRange) :
    (appendToKey acc k v).map Prod.fst = acc.map Prod.fst := by
  unfold appendToKey
  rw [List.map_map]
  apply List.map_congr_left
  intro p _
  by_cases h : p.1 = k <;> simp [h]


theorem fixRangesGo_spec :
    ∀ (errors : List SheetErrorInfo) (seen : List (String × String))
      (acc : List (String × List ValueRange)),
      (∀ e ∈ errors, ∀ et, e.entity_type = some et →
        (List.lookup et acc).isSome) →
      ∃ final, fixRangesGo errors seen acc = .ok final ∧
        final.map Prod.fst = acc.map Prod.fst ∧
        ∀ et cur, List.lookup et acc = some cur →
          List.lookup et final
            = some (cur ++ (selectFixes et errors seen).map
                (fun p => get_fix_value_range p.1 p.2)) := by
  intro errors
  induction errors with
  | nil =>
    intro seen acc _
    exact ⟨acc, rfl, rfl, fun et cur h => by simp [selectFixes, h]⟩
  | cons e rest ih =>
    intro seen acc hkeys
    have hk' : ∀ e ∈ rest, ∀ et, e.entity_type = some et →
        (List.lookup et acc).isSome :=
      fun e he => hkeys e (List.mem_cons_of_mem _ he)
    obtain ⟨etv, wid, msgv, rowv, colv, cellv, pkv, inv, fixv⟩ := e
    rcases fixv with _ | fix
    · obtain ⟨final, h1, h2, h3⟩ := ih seen acc hk'
      exact ⟨final, h1, h2, fun et cur hc => h3 et cur hc⟩
    rcases etv with _ | et'
    · obtain ⟨final, h1, h2, h3⟩ := ih seen acc hk'
      exact ⟨final, h1, h2, fun et cur hc => h3 et cur hc⟩
    rcases cellv with _ | cell
    · obtain ⟨final, h1, h2, h3⟩ := ih seen acc hk'
      exact ⟨final, h1, h2, fun et cur hc => h3 et cur hc⟩
    by_cases hseen : (et', cell) ∈ seen
    · obtain ⟨final, h1, h2, h3⟩ := ih seen acc hk'
      refine ⟨final, ?_, h2, ?_⟩
      · dsimp only [fixRangesGo]
        rw [if_pos hseen]
        exact h1
      · intro et cur hc
        dsimp only [selectFixes]
        rw [if_pos hseen]
        exact h3 et cur hc
    · have hsome : (List.lookup et' acc).isSome :=
        hkeys _ (List.mem_cons_self _ _) et' rfl
      obtain ⟨cur', hcur'⟩ := Option.isSome_iff_exists.mp hsome
      have hk'' : ∀ e ∈ rest, ∀ et, e.entity_type = some et →
          (List.lookup et
            (appendToKey acc et' (get_fix_value_range cell fix))).isSome := by
        intro e he et het
        rw [lookup_appendToKey]
        obtain ⟨c, hc⟩ := Option.isSome_iff_exists.mp (hk' e he et het)
        rw [hc]
        rfl
      obtain ⟨final, h1, h2, h3⟩ := ih ((et', cell) :: seen)
        (appendToKey acc et' (get_fix_value_range cell fix)) hk''
      refine ⟨final, ?_, ?_, ?_⟩
      · dsimp only [fixRangesGo]
        rw [if_neg hseen, hcur']
        exact h1
      · rw [h2, mapfst_appendToKey]
      · intro et cur hc
        have hacc' : List.lookup et
            (appendToKey acc et' (get_fix_value_range cell fix))
            = some (if et = et' then cur ++ [get_fix_value_range cell fix]
                    else cur) := by
          rw [lookup_appendToKey, hc]
          rfl
        have h3' := h3 et _ hacc'
        dsimp only [selectFixes]
        rw [if_neg hseen]
        by_cases hetet : et' = et
        · subst hetet
          rw [if_pos rfl]
          rw [if_pos rfl] at h3'
          rw [List.map_cons, List.append_cons]
          exact h3'
        · rw [if_neg hetet]
          rw [if_neg (fun h => hetet h.symm)] at h3'
          exact h3'


theorem lookup_init (ets : List String) (et : String) :
    List.lookup et (ets.map (fun t => (t, ([] : List ValueRange))))
      = if et ∈ ets then some [] else Option.none := by
  induction ets with
  | nil => rfl
  | cons t rest ih =>
    simp only [List.map_cons]
    by_cases h : et = t
    · subst h
      rw [lookup_cons_pos]
      simp
    · rw [lookup_cons_neg et t h, ih]
      by_cases hm : et ∈ rest
      · simp [hm, h]
      · simp [hm, h]

theorem lookup_mem {β : Type} :
    ∀ {l : List (String × β)} {et : String} {b : β},
      List.lookup et l = some b → (et, b) ∈ l := by
  intro l
  induction l with
  | nil => intro et b h; cases h
  | cons p rest ih =>
    intro et b h
    obtain ⟨k, v⟩ := p
    by_cases hk : et = k
    · subst hk
      rw [lookup_cons_pos] at h
      cases h
      exact List.mem_cons_self _ _
    · rw [lookup_cons_neg et k hk] at h
      exact List.mem_cons_of_mem _ (ih h)

theorem mem_lookup_of_nodup {β : Type} :
    ∀ {l : List (String × β)} {p : String × β},
      (l.map Prod.fst).Nodup → p ∈ l → List.lookup p.1 l = some p.2 := by
  intro l
  induction l with
  | nil => intro p _ hp; cases hp
  | cons q rest ih =>
    intro p hnd hp
    obtain ⟨k, v⟩ := q
    rw [List.map_cons] at hnd
    have hnd' := List.nodup_cons.mp hnd
    rcases List.mem_cons.mp hp with rfl | hp'
    · exact lookup_cons_pos _ _ _
    · have hne : p.1 ≠ k := by
        intro he
        have hmm : p.1 ∈ rest.map Prod.fst := List.mem_map_of_mem Prod.fst hp'
        rw [he] at hmm
        exact hnd'.1 hmm
      rw [lookup_cons_neg p.1 k hne]
      exact ih hnd'.2 hp'

theorem selectFixes_ne_nil (et : String) :
    ∀ (errors : List SheetErrorInfo) (seen : List (String × String)),
      (∃ e ∈ errors, ∃ fix cell, e.input_fix = some fix ∧
        e.entity_type = some et ∧ e.cell = some cell ∧ (et, cell) ∉ seen) →
      selectFixes et errors seen ≠ [] := by
  intro errors
  induction errors with
  | nil =>
    rintro seen ⟨e, he, _⟩
    cases he
  | cons e₀ rest ih =>
    rintro seen ⟨e, he, fix, cell, h1, h2, h3, h4⟩
    obtain ⟨etv, wid, msgv, rowv, colv, cellv, pkv, inv, fixv⟩ := e₀
    rcases fixv with _ | fix₀
    · rcases List.mem_cons.mp he with rfl | he'
      · cases h1
      · exact ih seen ⟨e, he', fix, cell, h1, h2, h3, h4⟩
    rcases etv with _ | et₀
    · rcases List.mem_cons.mp he with rfl | he'
      · cases h2
      · exact ih seen ⟨e, he', fix, cell, h1, h2, h3, h4⟩
    rcases cellv with _ | cell₀
    · rcases List.mem_cons.mp he with rfl | he'
      · cases h3
      · exact ih seen ⟨e, he', fix, cell, h1, h2, h3, h4⟩
    by_cases hseen : (et₀, cell₀) ∈ seen
    · dsimp only [selectFixes]
      rw [if_pos hseen]
      rcases List.mem_cons.mp he with rfl | he'
      · cases h2
        cases h3
        exact absurd hseen h4
      · exact ih seen ⟨e, he', fix, cell, h1, h2, h3, h4⟩
    · dsimp only [selectFixes]
      rw [if_neg hseen]
      by_cases het : et₀ = et
      · rw [if_pos het]
        exact List.cons_ne_nil _ _
      · rw [if_neg het]
        rcases List.mem_cons.mp he with rfl | he'
        · cases h2
          exact absurd rfl het
        · apply ih ((et₀, cell₀) :: seen)
          refine ⟨e, he', fix, cell, h1, h2, h3, ?_⟩
          intro hmem
          rcases List.mem_cons.mp hmem with heq | hmem'
          · exact het (congrArg Prod.fst heq).symm
          · exact h4 hmem'

/-- C9. The fix applicator builds, per entity type, exactly the write
instructions selected by "one instruction per error with a non-null
`input_fix`, a non-null entity type, and a non-null cell address, keeping
only the first error per (entity type, cell) pair"; writes are grouped per
worksheet (bucket keys are exactly the requested entity types, in order),
and `apply_fixes` returns `true` precisely when some entity type's bucket is
nonempty — equivalently, when at least one error is fixable. -/
theorem C9_fix_applicator (vr : SheetValidationResult)
    (entityTypes : List String) (hnd : entityTypes.Nodup)
    (hkeys : ∀ e ∈ vr.errors, ∀ et, e.entity_type = some et →
      et ∈ entityTypes) :
    ∃ vrs,
      get_fix_value_ranges_by_entity_type vr.errors entityTypes = .ok vrs ∧
      vrs.map Prod.fst = entityTypes ∧
      (∀ et ∈ entityTypes, List.lookup et vrs
        = some ((selectFixes et vr.errors []).map
            (fun p => get_fix_value_range p.1 p.2))) ∧
      apply_fixes vr entityTypes
        = .ok (!(vrs.filter (fun p => !p.2.isEmpty)).isEmpty,
               vrs.filter (fun p => !p.2.isEmpty)) ∧
      ((!(vrs.filter (fun p => !p.2.isEmpty)).isEmpty) = true ↔
        ∃ et ∈ entityTypes, selectFixes et vr.errors [] ≠ []) ∧
      (∀ e ∈ vr.errors, ∀ fix et cell, e.input_fix = some fix →
        e.entity_type = some et → e.cell = some cell →
        (!(vrs.filter (fun p => !p.2.isEmpty)).isEmpty) = true) := by
  have hinit : ∀ e ∈ vr.errors, ∀ et, e.entity_type = some et →
      (List.lookup et
        (entityTypes.map (fun t => (t, ([] : List ValueRange))))).isSome := by
    intro e he et het
    rw [lookup_init, if_pos (hkeys e he et het)]
    rfl
  obtain ⟨vrs, h1, h2, h3⟩ := fixRangesGo_spec vr.errors [] _ hinit
  have hfst : vrs.map Prod.fst = entityTypes := by
    rw [h2, List.map_map]
    have hcomp : (Prod.fst ∘ fun t : String => (t, ([] : List ValueRange)))
        = id := rfl
    rw [hcomp, List.map_id]
  have hlook : ∀ et ∈ entityTypes, List.lookup et vrs
      = some ((selectFixes et vr.errors []).map
          (fun p => get_fix_value_range p.1 p.2)) := by
    intro et hm
    have := h3 et [] (by rw [lookup_init, if_pos hm])
    simpa using this
  have happ : apply_fixes vr entityTypes
      = .ok (!(vrs.filter (fun p => !p.2.isEmpty)).isEmpty,
             vrs.filter (fun p => !p.2.isEmpty)) := by
    unfold apply_fixes get_fix_value_ranges_by_entity_type
    rw [h1]
    rfl
  have hiff : (!(vrs.filter (fun p => !p.2.isEmpty)).isEmpty) = true ↔
      ∃ et ∈ entityTypes, selectFixes et vr.errors [] ≠ [] := by
    rw [Bool.not_eq_true']
    constructor
    · intro hne
      have hne' : vrs.filter (fun p => !p.2.isEmpty) ≠ [] := by
        intro hnil
        simp [hnil] at hne
      obtain ⟨p, hp⟩ := List.exists_mem_of_ne_nil _ hne'
      have hp' := List.mem_filter.mp hp
      have hkey : p.1 ∈ entityTypes := by
        rw [← hfst]
        exact List.mem_map_of_mem Prod.fst hp'.1
      refine ⟨p.1, hkey, ?_⟩
      have hlk := mem_lookup_of_nodup (hfst ▸ hnd) hp'.1
      rw [hlook p.1 hkey] at hlk
      intro hsel
      rw [hsel] at hlk
      simp only [List.map_nil, Option.some.injEq] at hlk
      have hb := hp'.2
      rw [← hlk] at hb
      simp at hb
    · rintro ⟨et, hm, hsel⟩
      have hl := hlook et hm
      have hmem := lookup_mem hl
      have hmape : (List.map (fun p => get_fix_value_range p.1 p.2)
          (selectFixes et vr.errors [])).isEmpty = false := by
        cases hval : (List.map (fun p => get_fix_value_range p.1 p.2)
            (selectFixes et vr.errors [])).isEmpty
        · rfl
        · rw [List.isEmpty_iff] at hval
          exact absurd (List.map_eq_nil_iff.mp hval) hsel
      have hfil : (et, (selectFixes et vr.errors []).map
          (fun p => get_fix_value_range p.1 p.2))
          ∈ vrs.filter (fun p => !p.2.isEmpty) := by
        apply List.mem_filter.mpr
        exact ⟨hmem, by simp [hmape]⟩
      cases hfe : (vrs.filter (fun p => !p.2.isEmpty)).isEmpty
      · rfl
      · rw [List.isEmpty_iff] at hfe
        rw [hfe] at hfil
        cases hfil
  refine ⟨vrs, h1, hfst, hlook, happ, hiff, ?_⟩
  intro e he fix et cell h1' h2' h3'
  apply hiff.mpr
  refine ⟨et, hkeys e he et h2', ?_⟩
  exact selectFixes_ne_nil et vr.errors []
    ⟨e, he, fix, cell, h1', h2', h3', List.not_mem_nil _⟩


/-- C9 witness: for errors on entity type `donor` with fixes for cells `B6`
(twice — the second is de-duplicated) and `C7`, plus one unfixable error:
the buckets are exactly `dataset ↦ []`, `donor ↦ [B6→x, C7→z]`, and
`apply_fixes` reports `true` with one batch write for the donor worksheet. -/
theorem C9_fix_applicator_witness :
    get_fix_value_ranges_by_entity_type
        [{ entity_type := some "donor", worksheet_id := some 1,
           message := "m1", cell := some "B6", input_fix := some "x" },
         { entity_type := some "donor", worksheet_id := some 1,
           message := "m2", cell := some "B6", input_fix := some "y" },
         { entity_type := some "donor", worksheet_id := some 1,
           message := "m3" },
         { entity_type := some "donor", worksheet_id := some 1,
           message := "m4", cell := some "C7", input_fix := some "z" }]
        ["dataset", "donor"]
      = .ok [("dataset", []),
             ("donor", [{ range := "B6", values := [["x"]] },
                        { range := "C7", values := [["z"]] }])] ∧
    apply_fixes
        { successful := false, spreadsheet_metadata := Option.none,
          error_code := some "validation_error", summary := [],
          errors :=
            [{ entity_type := some "donor", worksheet_id := some 1,
               message := "m1", cell := some "B6", input_fix := some "x" },
             { entity_type := some "donor", worksheet_id := some 1,
               message := "m2", cell := some "B6", input_fix := some "y" },
             { entity_type := some "donor", worksheet_id := some 1,
               message := "m3" },
             { entity_type := some "donor", worksheet_id := some 1,
               message := "m4", cell := some "C7", input_fix := some "z" }] }
        ["dataset", "donor"]
      = .ok (true, [("donor", [{ range := "B6", values := [["x"]] },
                               { range := "C7", values := [["z"]] }])]) := by
  have hkeys : ∀ e ∈
      [({ entity_type := some "donor", worksheet_id := some 1,
          message := "m1", cell := some "B6",
          input_fix := some "x" } : SheetErrorInfo),
       { entity_type := some "donor", worksheet_id := some 1,
         message := "m2", cell := some "B6", input_fix := some "y" },
       { entity_type := some "donor", worksheet_id := some 1,
         message := "m3" },
       { entity_type := some "donor", worksheet_id := some 1,
         message := "m4", cell := some "C7", input_fix := some "z" }],
      ∀ et, e.entity_type = some et → et ∈ ["dataset", "donor"] := by
    intro e he et het
    simp only [List.mem_cons, List.not_mem_nil, or_false] at he
    rcases he with rfl | rfl | rfl | rfl <;>
      (injection het with hh; subst hh; decide)
  obtain ⟨vrs, h1, _, _, h4, _, _⟩ := C9_fix_applicator
    { successful := false, spreadsheet_metadata := Option.none,
      error_code := some "validation_error", summary := [],
      errors :=
        [{ entity_type := some "donor", worksheet_id := some 1,
           message := "m1", cell := some "B6", input_fix := some "x" },
         { entity_type := some "donor", worksheet_id := some 1,
           message := "m2", cell := some "B6", input_fix := some "y" },
         { entity_type := some "donor", worksheet_id := some 1,
           message := "m3" },
         { entity_type := some "donor", worksheet_id := some 1,
           message := "m4", cell := some "C7", input_fix := some "z" }] }
    ["dataset", "donor"] (by decide) hkeys
  have hd : get_fix_value_ranges_by_entity_type
      [{ entity_type := some "donor", worksheet_id := some 1,
         message := "m1", cell := some "B6", input_fix := some "x" },
       { entity_type := some "donor", worksheet_id := some 1,
         message := "m2", cell := some "B6", input_fix := some "y" },
       { entity_type := some "donor", worksheet_id := some 1,
         message := "m3" },
       { entity_type := some "donor", worksheet_id := some 1,
         message := "m4", cell := some "C7", input_fix := some "z" }]
      ["dataset", "donor"]
      = .ok [("dataset", []),
             ("donor", [{ range := "B6", values := [["x"]] },
                        { range := "C7", values := [["z"]] }])] := by decide
  refine ⟨hd, ?_⟩
  rw [h1] at hd
  simp only [Except.ok.injEq] at hd
  subst hd
  exact h4.trans (by decide)


/-! ### The `validate_google_sheet` pipeline (claims C3, C7) -/

/-- `allowed_bionetwork_names` from `validate_sheet.py`. -/
def allowed_bionetwork_names : List String :=
  ["adipose", "breast", "development", "eye", "genetic-diversity", "gut",
   "heart", "immune", "kidney", "liver", "lung", "musculoskeletal",
   "nervous-system", "oral", "organoid", "pancreas", "reproduction", "skin"]

/-- `sheet_structure_by_entity_type`: entity type to (sheet index,
primary key field). -/
def sheet_structure_by_entity_type : List (String × Nat × String) :=
  [("dataset", (0, "dataset_id")),
   ("donor", (1, "donor_id")),
   ("sample", (2, "sample_id"))]

/-- Whether a cell counts as blank in the row-emptiness check:
`pd.isna(val) or str(val).strip() == ''`. -/
def cellBlank (v : PyVal) : Bool :=
  match v with
  | .none => true
  | v => pyStrip (pyFormat v) = ""

/-- `is_empty` of the extraction loop: every cell is missing or trims to the
empty string. -/
def rowIsEmpty (row : List PyVal) : Bool :=
  row.all cellBlank

/-- Length of the maximal non-blank prefix (the while loop's count). -/
def countDataRows : List (List PyVal) → Nat
  | [] => 0
  | r :: rest => if rowIsEmpty r then 0 else countDataRows rest + 1

/-- The 0-based indices of the data rows: the while loop of
`validate_google_sheet` scanning from `start_row_index = 4` until the first
empty row. -/
def extractDataRowIndices (rows : List (List PyVal)) : List Nat :=
  List.range' 4 (countDataRows (rows.drop 4))

/-- `df.iloc[:, 1:]` when the first column has a blank header: drop the
first column from the frame. -/
def dropFirstUnnamed (ws : WorksheetInfo) : List String × List (List PyVal) :=
  if 1 < ws.dataColumns.length ∧ pyStrip (ws.dataColumns.headD "") = "" then
    (ws.dataColumns.drop 1, ws.dataRows.map (List.drop 1))
  else (ws.dataColumns, ws.dataRows)

/-- Build the column-oriented frame of the selected rows (missing cells are
NaN). -/
def toColsDF (cols : List String) (rows : List (List PyVal)) : ColsDF :=
  cols.enum.map (fun p => (p.2, rows.map (fun r => r.getD p.1 PyVal.none)))

/-- `row.to_dict()` for each of the `n` rows of a column-oriented frame. -/
def colsToRows (cols : ColsDF) (n : Nat) : List (List (String × PyVal)) :=
  (List.range n).map (fun j => cols.map (fun c => (c.1, c.2.getD j PyVal.none)))

/-- `f"{primary_key_field}:{row_dict[primary_key_field]}" if primary_key_field
in row_dict else None`. -/
def rowPrimaryKey (pkField : String) (rowDict : List (String × PyVal)) :
    Option PyVal :=
  match List.lookup pkField rowDict with
  | some v => some (.str (pkField ++ ":" ++ pyFormat v))
  | Option.none => Option.none

/-- The external pydantic engine (`validate(row_dict, class_name=...)`):
given a class name and a row dict, either raise (`Except.error`, caught per
row), report no violations, or report a list of violations. -/
abbrev Engine :=
  String → List (String × PyVal) → Except String (Option (List EngineErrorItem))

/-- `error.get("ctx", \x7b\x7d).get("row_index", row_index)` with the
`MISSING` sentinel: the item's context value when present, else the caller's
fallback; `ValueError` when neither is supplied (both call sites of the
pipeline supply a fallback or use items that carry the context). -/
def resolveRowIndex (ctx : Option Nat) (fallback : Option Nat) :
    Except String Nat :=
  match ctx, fallback with
  | some i, _ => .ok i
  | Option.none, some i => .ok i
  | Option.none, Option.none => .error "ValueError: No row index provided"

/-- Likewise for the row id (`row_id` may itself be a provided `None`). -/
def resolveRowId (ctx : Option PyVal) (fallback : Option (Option PyVal)) :
    Except String (Option PyVal) :=
  match ctx, fallback with
  | some v, _ => .ok (some v)
  | Option.none, some f => .ok f
  | Option.none, Option.none => .error "ValueError: No row ID provided"

/-- The body of `handle_validation_error`'s loop for one error item. -/
def handleErrorItem (entityType : String) (sheetInfo : WorksheetInfo)
    (rowIndexFallback : Option Nat) (rowIdFallback : Option (Option PyVal))
    (item : EngineErrorItem) : Except String SheetErrorInfo :=
  match resolveRowIndex item.ctxRowIndex rowIndexFallback with
  | .error e => .error e
  | .ok rowIdx =>
    match resolveRowId item.ctxRowId rowIdFallback with
    | .error e => .error e
    | .ok rowId =>
      .ok { entity_type := some entityType,
            worksheet_id := some sheetInfo.worksheet_id,
            message := item.msg, row := some rowIdx,
            column := item.loc.head?,
            cell := get_a1 sheetInfo rowIdx item.loc.head?,
            primary_key := rowId,
            input := some item.input, input_fix := Option.none }

/-- `handle_validation_error`: convert one engine/uniqueness error's items
into `SheetErrorInfo`s, resolving each item's row attribution and cell
address. -/
def handle_validation_error (items : List EngineErrorItem)
    (entityType : String) (sheetInfo : WorksheetInfo)
    (rowIndexFallback : Option Nat) (rowIdFallback : Option (Option PyVal)) :
    Except String (List SheetErrorInfo) :=
  items.mapM (handleErrorItem entityType sheetInfo rowIndexFallback
    rowIdFallback)

/-- One iteration of the per-row validation loop, with its
`try/except Exception`: an engine exception becomes a single error with the
exception message and no column/cell attribution. -/
def validateRow (engine : Engine) (className entityType : String)
    (ws : WorksheetInfo) (pkField : String) (label : Nat)
    (rowDict : List (String × PyVal)) :
    Except String (List SheetErrorInfo × Bool) :=
  match engine className rowDict with
  | .error e =>
    .ok ([{ entity_type := some entityType, worksheet_id := some ws.worksheet_id,
            message := e, row := some label,
            primary_key := rowPrimaryKey pkField rowDict }], false)
  | .ok Option.none => .ok ([], true)
  | .ok (some items) =>
    (handle_validation_error items entityType ws (some label)
      (some (rowPrimaryKey pkField rowDict))).map (fun errs => (errs, false))

/-- The per-worksheet validation: the uniqueness check followed by the
per-row engine validation; the flag is `all_valid_in_worksheet`. -/
def uniquenessPart (idOf : String → String) (className entityType : String)
    (ws : WorksheetInfo) (labels : List Nat) (cols : ColsDF) :
    Except String (List SheetErrorInfo × Bool) :=
  match validate_id_uniqueness (idOf className) labels cols with
  | Option.none => Except.ok (([] : List SheetErrorInfo), true)
  | some items =>
    (handle_validation_error items entityType ws Option.none Option.none).map
      (fun errs => (errs, false))

/-- The per-worksheet validation: the uniqueness check followed by the
per-row engine validation; the flag is `all_valid_in_worksheet`. -/
def validateWorksheet (engine : Engine) (idOf : String → String)
    (className entityType pkField : String) (ws : WorksheetInfo)
    (labels : List Nat) (cols : ColsDF) :
    Except String (List SheetErrorInfo × Bool) :=
  match uniquenessPart idOf className entityType ws labels cols with
  | .error e => .error e
  | .ok uniq =>
    match (labels.zip (colsToRows cols labels.length)).mapM
        (fun p => validateRow engine className entityType ws pkField p.1
          p.2) with
    | .error e => .error e
    | .ok rowResults =>
      .ok (uniq.1 ++ (rowResults.map Prod.fst).flatten,
        uniq.2 && rowResults.all Prod.snd)

/-- The validation loop over all entity types' extracted frames. -/
def validationPhase (engine : Engine) (idOf : String → String)
    (bionetwork : Option String) :
    List (String × WorksheetInfo × List Nat × ColsDF) →
    Except String (List SheetErrorInfo × Bool)
  | [] => .ok ([], true)
  | (et, ws, labels, cols) :: rest =>
    match get_entity_class_name et bionetwork with
    | .error e => .error e
    | .ok className =>
      match validateWorksheet engine idOf className et
          (((List.lookup et sheet_structure_by_entity_type).map
            Prod.snd).getD "") ws labels cols with
      | .error e => .error e
      | .ok wres =>
        match validationPhase engine idOf bionetwork rest with
        | .error e => .error e
        | .ok restres =>
          .ok (wres.1 ++ restres.1, wres.2 && restres.2)

/-- The extraction/normalization loop over all entity types' worksheets:
either an early whole-sheet `no_data` result (`Sum.inl`) or the per-entity
extracted frames (`Sum.inr`). -/
def extractPhase (sheetId : String) (entityTypes : List String)
    (bionetwork : Option String) (meta : SpreadsheetMetadata)
    (slotsOf : String → SlotMap) :
    List (String × WorksheetInfo) →
    Except String
      (Sum SheetValidationResult (List (String × WorksheetInfo × List Nat × ColsDF)))
  | [] => .ok (.inr [])
  | (et, ws) :: rest =>
    if (extractDataRowIndices (dropFirstUnnamed ws).2).isEmpty then
      .ok (.inl (make_validation_result_for_whole_sheet_error sheetId
        entityTypes "no_data"
        (some ("No data found to validate starting from " ++ et ++ " row 6."))
        (some meta) (some ws.worksheet_id) (some et)))
    else
      match get_entity_class_name et bionetwork with
      | .error e => .error e
      | .ok className =>
        match normalize_dataframe_values (slotsOf className)
            (toColsDF (dropFirstUnnamed ws).1
              ((extractDataRowIndices (dropFirstUnnamed ws).2).map
                (fun i => (dropFirstUnnamed ws).2.getD i []))) with
        | .error e => .error e
        | .ok normCols =>
          match extractPhase sheetId entityTypes bionetwork meta slotsOf
              rest with
          | .error e => .error e
          | .ok (.inl r) => .ok (.inl r)
          | .ok (.inr xs) =>
            .ok (.inr ((et, ws,
              (extractDataRowIndices (dropFirstUnnamed ws).2).map (· + 1),
              normCols) :: xs))

/-- The bionetwork parameter check of `validate_google_sheet`. -/
def bionetworkInvalid : Option String → Bool
  | some bn => !(allowed_bionetwork_names.contains bn)
  | Option.none => false

/-- `validate_google_sheet`: parameter validation, the batched read (its
outcome supplied as `readResult`; a `SheetReadError` becomes a whole-sheet
failure result), extraction and normalization per entity type (with the
`no_data` early return), the per-worksheet uniqueness and per-row engine
validation, and the summary/result assembly. The external schema view is
supplied as `slotsOf` (induced slots per class) and `idOf` (identifier slot
per class); the pydantic engine as `engine`. -/
def validate_google_sheet (sheetId : String) (entityTypes : List String)
    (bionetwork : Option String)
    (readResult : Except SheetReadError SpreadsheetInfo)
    (slotsOf : String → SlotMap) (idOf : String → String) (engine : Engine) :
    Except String SheetValidationResult :=
  if sheetId = "" then
    .error "ValueError: sheet_id is required for validate_google_sheet()"
  else if bionetworkInvalid bionetwork then
    .error "ValueError: not a valid bionetwork"
  else if entityTypes.any
      (fun t => (List.lookup t sheet_structure_by_entity_type).isNone) then
    .error "ValueError: Invalid entity types"
  else
    match readResult with
    | .error readError =>
      .ok (make_read_error_validation_result sheetId entityTypes readError)
    | .ok info =>
      match extractPhase sheetId entityTypes bionetwork
          info.spreadsheet_metadata slotsOf
          (entityTypes.zip info.worksheets) with
      | .error e => .error e
      | .ok (.inl result) => .ok result
      | .ok (.inr frames) =>
        match validationPhase engine idOf bionetwork frames with
        | .error e => .error e
        | .ok valres =>
          .ok { successful := valres.2,
                spreadsheet_metadata := some info.spreadsheet_metadata,
                error_code :=
                  if valres.2 then Option.none else some "validation_error",
                summary :=
                  frames.map (fun f => (f.1 ++ "_count", some f.2.2.1.length))
                    ++ [("error_count", some valres.1.length)],
                errors := valres.1 }


theorem getD_drop (n : Nat) :
    ∀ (l : List (List PyVal)) (j : Nat),
      (l.drop n).getD j [] = l.getD (n + j) [] := by
  induction n with
  | zero => intro l j; rw [Nat.zero_add]; rfl
  | succ n ih =>
    intro l j
    cases l with
    | nil => simp [List.getD]
    | cons a rest =>
      show (rest.drop n).getD j [] = (a :: rest).getD (n + 1 + j) []
      rw [ih rest j]
      have : n + 1 + j = (n + j) + 1 := by omega
      rw [this]
      rfl

theorem countDataRows_le (l : List (List PyVal)) :
    countDataRows l ≤ l.length := by
  induction l with
  | nil => exact Nat.le_refl 0
  | cons r rest ih =>
    unfold countDataRows
    by_cases h : rowIsEmpty r
    · rw [if_pos h]
      exact Nat.zero_le _
    · rw [if_neg h]
      simp only [List.length_cons]
      omega

theorem countDataRows_blank_before (l : List (List PyVal)) :
    ∀ j, j < countDataRows l → rowIsEmpty (l.getD j []) = false := by
  induction l with
  | nil => intro j h; simp [countDataRows] at h
  | cons r rest ih =>
    intro j h
    unfold countDataRows at h
    by_cases hr : rowIsEmpty r
    · rw [if_pos hr] at h
      omega
    · rw [if_neg hr] at h
      cases j with
      | zero =>
        simpa [List.getD] using Bool.eq_false_iff.mpr hr
      | succ j =>
        have : j < countDataRows rest := by omega
        simpa [List.getD] using ih j this

theorem countDataRows_stop (l : List (List PyVal)) :
    countDataRows l < l.length →
    rowIsEmpty (l.getD (countDataRows l) []) = true := by
  induction l with
  | nil => intro h; simp at h
  | cons r rest ih =>
    intro h
    unfold countDataRows at h ⊢
    by_cases hr : rowIsEmpty r
    · rw [if_pos hr]
      simpa [List.getD] using hr
    · rw [if_neg hr] at h ⊢
      have : countDataRows rest < rest.length := by
        simp only [List.length_cons] at h
        omega
      simpa [List.getD] using ih this

/-- C7. Row extraction scans from 0-based row index 4 (spreadsheet row 6):
it returns exactly the contiguous index block `[4, 4+k)` where `k` counts
the rows of the maximal non-blank run from offset 4; every extracted index
lies in range with a non-blank row, the first row after the block (when it
exists) is blank — scanning stops there regardless of later non-blank rows —
and rows before offset 4 are never extracted. -/
theorem C7_row_extraction (rows : List (List PyVal)) :
    extractDataRowIndices rows
      = List.range' 4 (countDataRows (rows.drop 4)) ∧
    (∀ i ∈ extractDataRowIndices rows,
      4 ≤ i ∧ i < rows.length ∧ rowIsEmpty (rows.getD i []) = false) ∧
    (4 + countDataRows (rows.drop 4) < rows.length →
      rowIsEmpty (rows.getD (4 + countDataRows (rows.drop 4)) []) = true) ∧
    (extractDataRowIndices rows).length = countDataRows (rows.drop 4) := by
  refine ⟨rfl, ?_, ?_, ?_⟩
  · intro i hi
    rw [extractDataRowIndices, List.mem_range'_1] at hi
    obtain ⟨h4, hlt⟩ := hi
    have hj : i - 4 < countDataRows (rows.drop 4) := by omega
    have hcount := countDataRows_le (rows.drop 4)
    rw [List.length_drop] at hcount
    refine ⟨h4, by omega, ?_⟩
    have := countDataRows_blank_before (rows.drop 4) (i - 4) hj
    rw [getD_drop] at this
    have h4i : 4 + (i - 4) = i := by omega
    rw [h4i] at this
    exact this
  · intro h
    have hlen : countDataRows (rows.drop 4) < (rows.drop 4).length := by
      rw [List.length_drop]
      omega
    have := countDataRows_stop (rows.drop 4) hlen
    rw [getD_drop] at this
    exact this
  · rw [extractDataRowIndices, List.length_range']

/-- C7 witness: a worksheet with data rows at offsets 4, 5, 6 and a blank
row at offset 7 yields exactly the 3 indices `[4, 5, 6]`, regardless of a
non-blank row at offset 8; the full pipeline reports `dataset_count = 3` for
such a sheet; and the theorem instantiates at index 4 of the concrete rows. -/
theorem C7_row_extraction_witness :
    extractDataRowIndices
        [[.str "h"], [.str "h"], [.str "h"], [.str "h"], [.str "a"],
         [.str "b"], [.str "c"], [.str ""], [.str "d"]] = [4, 5, 6] ∧
    (4 ≤ 4 ∧
      4 < ([[.str "h"], [.str "h"], [.str "h"], [.str "h"], [.str "a"],
            [.str "b"], [.str "c"], [.str ""], [.str "d"]] :
              List (List PyVal)).length ∧
      rowIsEmpty
        ([[.str "h"], [.str "h"], [.str "h"], [.str "h"], [.str "a"],
          [.str "b"], [.str "c"], [.str ""], [.str "d"]].getD 4 []) = false) ∧
    validate_google_sheet "S" ["dataset"] Option.none
        (.ok { spreadsheet_metadata :=
                 ⟨"T", "2024-01-01", "user", Option.none, false⟩,
               worksheets :=
                 [{ dataColumns := ["dataset_id"],
                    dataRows := [[.str "h"], [.str "h"], [.str "h"],
                                 [.str "h"], [.str "a"], [.str "b"],
                                 [.str "c"], [.str ""], [.str "d"]],
                    worksheet_id := 7, source_columns := ["dataset_id"],
                    source_rows_start_index := 1 }] })
        (fun _ _ => Option.none) (fun _ => "dataset_id")
        (fun _ _ => .ok Option.none)
      = .ok { successful := true,
              spreadsheet_metadata :=
                some ⟨"T", "2024-01-01", "user", Option.none, false⟩,
              error_code := Option.none,
              summary := [("dataset_count", some 3), ("error_count", some 0)],
              errors := [] } := by
  refine ⟨by decide, ?_, by decide⟩
  exact (C7_row_extraction
    [[.str "h"], [.str "h"], [.str "h"], [.str "h"], [.str "a"],
     [.str "b"], [.str "c"], [.str ""], [.str "d"]]).2.1 4 (by decide)


theorem entity_type_cases {et : String}
    (h : (List.lookup et sheet_structure_by_entity_type).isSome) :
    et = "dataset" ∨ et = "donor" ∨ et = "sample" := by
  by_cases h1 : et = "dataset"
  · exact Or.inl h1
  by_cases h2 : et = "donor"
  · exact Or.inr (Or.inl h2)
  by_cases h3 : et = "sample"
  · exact Or.inr (Or.inr h3)
  exfalso
  unfold sheet_structure_by_entity_type at h
  rw [lookup_cons_neg et _ h1, lookup_cons_neg et _ h2,
    lookup_cons_neg et _ h3] at h
  cases h

theorem summary_lookup_count (n : Nat) :
    ∀ (ets : List String) (et : String), et ∈ ets →
    List.lookup (et ++ "_count") (make_summary_without_entities n ets)
      = some Option.none := by
  intro ets
  induction ets with
  | nil => intro et h; cases h
  | cons t rest ih =>
    intro et hm
    show List.lookup (et ++ "_count")
      ((t ++ "_count", (Option.none : Option Nat))
        :: make_summary_without_entities n rest) = some Option.none
    by_cases hk : et ++ "_count" = t ++ "_count"
    · rw [hk, lookup_cons_pos]
    · rw [lookup_cons_neg _ _ hk]
      rcases List.mem_cons.mp hm with rfl | hm'
      · exact absurd rfl hk
      · exact ih et hm'

theorem summary_lookup_error_count (n : Nat) :
    ∀ (ets : List String),
    (∀ et ∈ ets, et ++ "_count" ≠ "error_count") →
    List.lookup "error_count" (make_summary_without_entities n ets)
      = some (some n) := by
  intro ets
  induction ets with
  | nil => exact fun _ => lookup_cons_pos _ _ _
  | cons t rest ih =>
    intro h
    show List.lookup "error_count"
      ((t ++ "_count", (Option.none : Option Nat))
        :: make_summary_without_entities n rest) = some (some n)
    rw [lookup_cons_neg _ _
      (fun he => h t (List.mem_cons_self _ _) he.symm)]
    exact ih (fun et hm => h et (List.mem_cons_of_mem _ hm))

/-- C3. When the batched read fails with any error code, the pipeline
returns — without raising — the synthetic whole-sheet failure result:
`successful = false`, `error_code` equal to the read failure's code, every
per-entity-type count in the summary `null`, `error_count = 1`, exactly one
synthetic error; and the result is independent of the schema view and the
validation engine, i.e. no extraction, normalization, validation, or fix
stage influences it. -/
theorem C3_read_failure_short_circuit (sheetId : String)
    (entityTypes : List String) (bionetwork : Option String)
    (readError : SheetReadError)
    (slotsOf slotsOf' : String → SlotMap) (idOf idOf' : String → String)
    (engine engine' : Engine)
    (hsid : sheetId ≠ "")
    (hbn : ∀ b, bionetwork = some b → b ∈ allowed_bionetwork_names)
    (hets : ∀ et ∈ entityTypes,
      (List.lookup et sheet_structure_by_entity_type).isSome) :
    validate_google_sheet sheetId entityTypes bionetwork (.error readError)
        slotsOf idOf engine
      = .ok (make_read_error_validation_result sheetId entityTypes readError) ∧
    (make_read_error_validation_result sheetId entityTypes
      readError).successful = false ∧
    (make_read_error_validation_result sheetId entityTypes
      readError).error_code = some readError.error_code ∧
    (∀ et ∈ entityTypes,
      List.lookup (et ++ "_count")
        (make_read_error_validation_result sheetId entityTypes
          readError).summary = some Option.none) ∧
    List.lookup "error_count"
      (make_read_error_validation_result sheetId entityTypes
        readError).summary = some (some 1) ∧
    (make_read_error_validation_result sheetId entityTypes
      readError).errors.length = 1 ∧
    validate_google_sheet sheetId entityTypes bionetwork (.error readError)
        slotsOf' idOf' engine'
      = validate_google_sheet sheetId entityTypes bionetwork
          (.error readError) slotsOf idOf engine := by
  have hbn' : bionetworkInvalid bionetwork = false := by
    cases bionetwork with
    | none => rfl
    | some b =>
      have hb := hbn b rfl
      show (!(allowed_bionetwork_names.contains b)) = false
      rw [Bool.not_eq_false']
      exact List.elem_eq_true_of_mem hb
  have hany : entityTypes.any
      (fun t => (List.lookup t sheet_structure_by_entity_type).isNone)
      = false := by
    rw [List.any_eq_false]
    intro t ht
    obtain ⟨v, hv⟩ := Option.isSome_iff_exists.mp (hets t ht)
    simp [hv]
  have key : ∀ (sl : String → SlotMap) (io : String → String) (en : Engine),
      validate_google_sheet sheetId entityTypes bionetwork
        (.error readError) sl io en
      = .ok (make_read_error_validation_result sheetId entityTypes
          readError) := by
    intro sl io en
    unfold validate_google_sheet
    rw [if_neg hsid, hbn', hany]
    rfl
  refine ⟨key slotsOf idOf engine, rfl, rfl, ?_, ?_, rfl, ?_⟩
  · intro et hm
    exact summary_lookup_count 1 entityTypes et hm
  · apply summary_lookup_error_count
    intro et hm
    rcases entity_type_cases (hets et hm) with rfl | rfl | rfl <;> decide
  · rw [key slotsOf' idOf' engine', key slotsOf idOf engine]

/-- C3 witness: the concrete `sheet_not_found` read failure on a
donor+dataset request yields the expected short-circuit result. -/
theorem C3_read_failure_short_circuit_witness :
    validate_google_sheet "sheet1" ["dataset", "donor"] Option.none
        (.error { error_code := "sheet_not_found" })
        (fun _ _ => Option.none) (fun _ => "id") (fun _ _ => .ok Option.none)
      = .ok { successful := false, spreadsheet_metadata := Option.none,
              error_code := some "sheet_not_found",
              summary := [("dataset_count", Option.none),
                          ("donor_count", Option.none),
                          ("error_count", some 1)],
              errors := [{ entity_type := Option.none,
                           worksheet_id := Option.none,
                           message := "Could not access or read data from sheet sheet1 (Error: sheet_not_found)" }] } := by
  have h := (C3_read_failure_short_circuit "sheet1" ["dataset", "donor"]
    Option.none { error_code := "sheet_not_found" }
    (fun _ _ => Option.none) (fun _ _ => Option.none)
    (fun _ => "id") (fun _ => "id")
    (fun _ _ => .ok Option.none) (fun _ _ => .ok Option.none)
    (by decide) (fun b hb => by cases hb)
    (by intro et h; fin_cases h <;> decide)).1
  exact h.trans (by decide)


/-! ### `process_google_sheet` (claims C1, C10) -/

/-- An error with its `input_fix` cleared (for comparing errors up to the
fix-resolution pass). -/
def clearFix (e : SheetErrorInfo) : SheetErrorInfo :=
  { e with input_fix := Option.none }

theorem addFix_clearFix (error : SheetErrorInfo) (bionetwork : Option String)
    (inducedAttrsOf : String → List String) (e' : SheetErrorInfo)
    (h : add_fix_to_error_if_available error bionetwork inducedAttrsOf
      = .ok e') : clearFix e' = clearFix error := by
  obtain ⟨etv, wid, msgv, rowv, colv, cellv, pkv, inv, fixv⟩ := error
  rcases etv with _ | et
  · cases h; rfl
  rcases colv with _ | col
  · cases h; rfl
  rcases inv with _ | v
  · cases h; rfl
  rcases v with _ | sv | nv | xs
  · cases h; rfl
  · unfold add_fix_to_error_if_available at h
    dsimp only at h
    cases hclass : get_entity_class_name et bionetwork with
    | error m =>
      rw [hclass] at h
      simp [Except.map] at h
    | ok cn =>
      rw [hclass] at h
      simp only [Except.map, Except.ok.injEq] at h
      subst h
      rfl
  · cases h; rfl
  · cases h; rfl

theorem add_fixes_clearFix (errors : List SheetErrorInfo)
    (bionetwork : Option String) (inducedAttrsOf : String → List String)
    (errors' : List SheetErrorInfo)
    (h : add_fixes_to_errors errors bionetwork inducedAttrsOf = .ok errors') :
    errors'.map clearFix = errors.map clearFix := by
  unfold add_fixes_to_errors at h
  have h₂ := exceptMapM_ok_forall₂ _ _ _ h
  clear h
  induction h₂ with
  | nil => rfl
  | cons hab _ ih =>
    simp only [List.map_cons, addFix_clearFix _ _ _ _ hab, ih]

theorem handleErrorItem_no_fix (entityType : String) (ws : WorksheetInfo)
    (rf : Option Nat) (idf : Option (Option PyVal)) (item : EngineErrorItem)
    (e : SheetErrorInfo)
    (h : handleErrorItem entityType ws rf idf item = .ok e) :
    e.input_fix = Option.none := by
  unfold handleErrorItem at h
  split at h
  · cases h
  split at h
  · cases h
  simp only [Except.ok.injEq] at h
  subst h
  rfl

theorem handle_no_fix (items : List EngineErrorItem) (entityType : String)
    (ws : WorksheetInfo) (rf : Option Nat) (idf : Option (Option PyVal))
    (errs : List SheetErrorInfo)
    (h : handle_validation_error items entityType ws rf idf = .ok errs) :
    ∀ e ∈ errs, e.input_fix = Option.none := by
  intro e he
  have h₂ := exceptMapM_ok_forall₂ _ _ _ h
  obtain ⟨item, _, hitem⟩ := forall₂_mem_right h₂ e he
  exact handleErrorItem_no_fix _ _ _ _ _ _ hitem

theorem validateRow_no_fix (engine : Engine) (className entityType : String)
    (ws : WorksheetInfo) (pkField : String) (label : Nat)
    (rowDict : List (String × PyVal)) (errs : List SheetErrorInfo) (b : Bool)
    (h : validateRow engine className entityType ws pkField label rowDict
      = .ok (errs, b)) :
    ∀ e ∈ errs, e.input_fix = Option.none := by
  unfold validateRow at h
  split at h
  · simp only [Except.ok.injEq, Prod.mk.injEq] at h
    intro e he
    rw [← h.1] at he
    rcases List.mem_singleton.mp he with rfl
    rfl
  · simp only [Except.ok.injEq, Prod.mk.injEq] at h
    intro e he
    rw [← h.1] at he
    cases he
  · rename_i items heng
    cases hh : handle_validation_error items entityType ws (some label)
        (some (rowPrimaryKey pkField rowDict)) with
    | error m =>
      rw [hh] at h
      simp [Except.map] at h
    | ok herrs =>
      rw [hh] at h
      simp only [Except.map, Except.ok.injEq, Prod.mk.injEq] at h
      intro e he
      rw [← h.1] at he
      exact handle_no_fix _ _ _ _ _ _ hh e he

theorem uniquenessPart_no_fix (idOf : String → String)
    (className entityType : String) (ws : WorksheetInfo)
    (labels : List Nat) (cols : ColsDF) (uniq : List SheetErrorInfo × Bool)
    (h : uniquenessPart idOf className entityType ws labels cols = .ok uniq) :
    ∀ e ∈ uniq.1, e.input_fix = Option.none := by
  unfold uniquenessPart at h
  cases hval : validate_id_uniqueness (idOf className) labels cols with
  | none =>
    rw [hval] at h
    simp only [Except.ok.injEq] at h
    subst h
    intro e he
    cases he
  | some items =>
    rw [hval] at h
    dsimp only at h
    cases hh : handle_validation_error items entityType ws Option.none
        Option.none with
    | error m =>
      rw [hh] at h
      simp [Except.map] at h
    | ok herrs =>
      rw [hh] at h
      simp only [Except.map, Except.ok.injEq] at h
      subst h
      intro e he
      exact handle_no_fix _ _ _ _ _ _ hh e he

theorem validateWorksheet_no_fix (engine : Engine) (idOf : String → String)
    (className entityType pkField : String) (ws : WorksheetInfo)
    (labels : List Nat) (cols : ColsDF) (errs : List SheetErrorInfo)
    (b : Bool)
    (h : validateWorksheet engine idOf className entityType pkField ws labels
      cols = .ok (errs, b)) :
    ∀ e ∈ errs, e.input_fix = Option.none := by
  unfold validateWorksheet at h
  cases hu : uniquenessPart idOf className entityType ws labels cols with
  | error m => rw [hu] at h; cases h
  | ok uniq =>
    rw [hu] at h
    dsimp only at h
    cases hrows : (labels.zip (colsToRows cols labels.length)).mapM
        (fun p => validateRow engine className entityType ws pkField p.1
          p.2) with
    | error m => rw [hrows] at h; cases h
    | ok rowResults =>
      rw [hrows] at h
      simp only [Except.ok.injEq, Prod.mk.injEq] at h
      intro e he
      rw [← h.1] at he
      rcases List.mem_append.mp he with he1 | he2
      · exact uniquenessPart_no_fix idOf className entityType ws labels cols
          uniq hu e he1
      · rw [List.mem_flatten] at he2
        obtain ⟨l, hl, hel⟩ := he2
        obtain ⟨pr, hpr, rfl⟩ := List.mem_map.mp hl
        have h₂ := exceptMapM_ok_forall₂ _ _ _ hrows
        obtain ⟨p, _, hp⟩ := forall₂_mem_right h₂ pr hpr
        exact validateRow_no_fix engine className entityType ws pkField p.1
          p.2 pr.1 pr.2 (by rw [hp]) e hel

theorem validationPhase_no_fix (engine : Engine) (idOf : String → String)
    (bionetwork : Option String) :
    ∀ (frames : List (String × WorksheetInfo × List Nat × ColsDF))
      (errs : List SheetErrorInfo) (b : Bool),
      validationPhase engine idOf bionetwork frames = .ok (errs, b) →
      ∀ e ∈ errs, e.input_fix = Option.none := by
  intro frames
  induction frames with
  | nil =>
    intro errs b h
    simp only [validationPhase, Except.ok.injEq, Prod.mk.injEq] at h
    intro e he
    rw [← h.1] at he
    cases he
  | cons f rest ih =>
    intro errs b h
    obtain ⟨et, ws, labels, cols⟩ := f
    unfold validationPhase at h
    cases hcn : get_entity_class_name et bionetwork with
    | error m => rw [hcn] at h; cases h
    | ok className =>
      rw [hcn] at h
      dsimp only at h
      cases hw : validateWorksheet engine idOf className et
          (((List.lookup et sheet_structure_by_entity_type).map
            Prod.snd).getD "") ws labels cols with
      | error m => rw [hw] at h; cases h
      | ok wres =>
        rw [hw] at h
        dsimp only at h
        cases hrest : validationPhase engine idOf bionetwork rest with
        | error m => rw [hrest] at h; cases h
        | ok restres =>
          rw [hrest] at h
          simp only [Except.ok.injEq, Prod.mk.injEq] at h
          intro e he
          rw [← h.1] at he
          rcases List.mem_append.mp he with he1 | he2
          · exact validateWorksheet_no_fix engine idOf className et _ ws
              labels cols wres.1 wres.2 (by rw [← hw]) e he1
          · exact ih restres.1 restres.2 (by rw [← hrest]) e he2

theorem extractPhase_no_fix (sheetId : String) (entityTypes : List String)
    (bionetwork : Option String) (meta : SpreadsheetMetadata)
    (slotsOf : String → SlotMap) :
    ∀ (pairs : List (String × WorksheetInfo)) (r : SheetValidationResult),
      extractPhase sheetId entityTypes bionetwork meta slotsOf pairs
        = .ok (.inl r) →
      ∀ e ∈ r.errors, e.input_fix = Option.none := by
  intro pairs
  induction pairs with
  | nil => intro r h; cases h
  | cons p rest ih =>
    intro r h
    obtain ⟨et, ws⟩ := p
    unfold extractPhase at h
    by_cases hempty : (extractDataRowIndices (dropFirstUnnamed ws).2).isEmpty
    · rw [if_pos hempty] at h
      simp only [Except.ok.injEq, Sum.inl.injEq] at h
      subst h
      intro e he
      rcases List.mem_singleton.mp he with rfl
      rfl
    · rw [if_neg hempty] at h
      cases hcn : get_entity_class_name et bionetwork with
      | error m => rw [hcn] at h; cases h
      | ok className =>
        rw [hcn] at h
        dsimp only at h
        cases hnorm : normalize_dataframe_values (slotsOf className)
            (toColsDF (dropFirstUnnamed ws).1
              ((extractDataRowIndices (dropFirstUnnamed ws).2).map
                (fun i => (dropFirstUnnamed ws).2.getD i []))) with
        | error m => rw [hnorm] at h; cases h
        | ok normCols =>
          rw [hnorm] at h
          dsimp only at h
          cases hrest : extractPhase sheetId entityTypes bionetwork meta
              slotsOf rest with
          | error m => rw [hrest] at h; cases h
          | ok restres =>
            rw [hrest] at h
            cases restres with
            | inl r2 =>
              simp only [Except.ok.injEq, Sum.inl.injEq] at h
              subst h
              exact ih _ hrest
            | inr xs => simp at h

theorem validate_google_sheet_no_fix (sheetId : String)
    (entityTypes : List String) (bionetwork : Option String)
    (readResult : Except SheetReadError SpreadsheetInfo)
    (slotsOf : String → SlotMap) (idOf : String → String) (engine : Engine)
    (v : SheetValidationResult)
    (h : validate_google_sheet sheetId entityTypes bionetwork readResult
      slotsOf idOf engine = .ok v) :
    ∀ e ∈ v.errors, e.input_fix = Option.none := by
  unfold validate_google_sheet at h
  split at h
  · cases h
  split at h
  · cases h
  split at h
  · cases h
  cases readResult with
  | error re =>
    simp only [Except.ok.injEq] at h
    subst h
    intro e he
    rcases List.mem_singleton.mp he with rfl
    rfl
  | ok info =>
    dsimp only at h
    cases hex : extractPhase sheetId entityTypes bionetwork
        info.spreadsheet_metadata slotsOf
        (entityTypes.zip info.worksheets) with
    | error m => rw [hex] at h; cases h
    | ok extracted =>
      rw [hex] at h
      cases extracted with
      | inl result =>
        simp only [Except.ok.injEq] at h
        subst h
        exact extractPhase_no_fix _ _ _ _ _ _ _ hex
      | inr frames =>
        dsimp only at h
        cases hval : validationPhase engine idOf bionetwork frames with
        | error m => rw [hval] at h; cases h
        | ok valres =>
          rw [hval] at h
          simp only [Except.ok.injEq] at h
          subst h
          exact validationPhase_no_fix engine idOf bionetwork frames valres.1
            valres.2 (by rw [← hval])


/-- `process_google_sheet` (shared snapshot): read (outcome supplied as
`readResult`; a `SheetReadError` yields the read-error result), validate,
resolve fixes into the errors, and — when the spreadsheet metadata says the
sheet is editable — apply the fixes; if any write was made, re-validate
(reading afresh, outcome `rereadResult`) and run fix resolution once more
over the new errors purely to log non-convergence (returned here as the
final `Bool`; the re-resolved errors themselves are discarded). Returns the
final result together with the issued batch writes. -/
def process_google_sheet (sheetId : String) (entityTypes : List String)
    (bionetwork : Option String)
    (readResult : Except SheetReadError SpreadsheetInfo)
    (rereadResult : Except SheetReadError SpreadsheetInfo)
    (slotsOf : String → SlotMap) (idOf : String → String) (engine : Engine)
    (inducedAttrsOf : String → List String) :
    Except String
      (SheetValidationResult × List (String × List ValueRange) × Bool) :=
  match readResult with
  | .error re =>
    .ok (make_read_error_validation_result sheetId entityTypes re, [], false)
  | .ok info =>
    match validate_google_sheet sheetId entityTypes bionetwork (.ok info)
        slotsOf idOf engine with
    | .error e => .error e
    | .ok vr0 =>
      match add_fixes_to_errors vr0.errors bionetwork inducedAttrsOf with
      | .error e => .error e
      | .ok fixedErrors =>
        match vr0.spreadsheet_metadata with
        | some meta =>
          if meta.can_edit then
            match apply_fixes { vr0 with errors := fixedErrors }
                entityTypes with
            | .error e => .error e
            | .ok mw =>
              if mw.1 then
                match validate_google_sheet sheetId entityTypes bionetwork
                    rereadResult slotsOf idOf engine with
                | .error e => .error e
                | .ok vr2 =>
                  match add_fixes_to_errors vr2.errors bionetwork
                      inducedAttrsOf with
                  | .error e => .error e
                  | .ok errsWithFixInfo =>
                    .ok (vr2, mw.2,
                      errsWithFixInfo.any (fun e => e.input_fix.isSome))
              else .ok ({ vr0 with errors := fixedErrors }, mw.2, false)
          else .ok ({ vr0 with errors := fixedErrors }, [], false)
        | Option.none => .ok ({ vr0 with errors := fixedErrors }, [], false)

theorem apply_fixes_shape (vr : SheetValidationResult)
    (entityTypes : List String) (b : Bool)
    (w : List (String × List ValueRange))
    (h : apply_fixes vr entityTypes = .ok (b, w)) : b = !w.isEmpty := by
  unfold apply_fixes at h
  cases hg : get_fix_value_ranges_by_entity_type vr.errors entityTypes with
  | error m => rw [hg] at h; simp [Except.map] at h
  | ok vrs =>
    rw [hg] at h
    simp only [Except.map, Except.ok.injEq, Prod.mk.injEq] at h
    rw [← h.1, ← h.2]

theorem clearFix_eq_self (e : SheetErrorInfo)
    (h : e.input_fix = Option.none) : clearFix e = e := by
  obtain ⟨etv, wid, msgv, rowv, colv, cellv, pkv, inv, fixv⟩ := e
  simp only at h
  subst h
  rfl

/-- C1. Counterexample: with `can_edit = false` and a donor row whose
`manner_of_death` is `"not_applicable"` (for which the fix table has a
correction), `process_google_sheet` returns an error list whose single
error carries `input_fix = "not applicable"` while `validate_google_sheet`
returns the same error with `input_fix = None` — the error lists are not
equal, although no write is attempted. -/
theorem C1_process_vs_validate_counterexample :
    (process_google_sheet "sheetC" ["donor"] Option.none
        (.ok { spreadsheet_metadata :=
                 ⟨"T", "D", "U", Option.none, false⟩,
               worksheets :=
                 [{ dataColumns := ["donor_id", "manner_of_death"],
                    dataRows := [[.str "x", .str "x"], [.str "x", .str "x"],
                                 [.str "x", .str "x"], [.str "x", .str "x"],
                                 [.str "d1", .str "not_applicable"]],
                    worksheet_id := 11,
                    source_columns := ["donor_id", "manner_of_death"],
                    source_rows_start_index := 1 }] })
        (.error { error_code := "api_error" })
        (fun _ _ => Option.none) (fun _ => "donor_id")
        (fun cn rd =>
          if cn = "Donor" then
            match List.lookup "manner_of_death" rd with
            | some (.str "not_applicable") =>
              .ok (some [{ ctxRowIndex := Option.none,
                           ctxRowId := Option.none,
                           loc := ["manner_of_death"],
                           msg := "Input should be a valid option",
                           input := .str "not_applicable" }])
            | _ => .ok Option.none
          else .ok Option.none)
        (fun _ => ["manner_of_death"])).map
        (fun p => (p.1.errors.map (fun e => e.input_fix), p.2.1))
      = .ok ([some "not applicable"], []) ∧
    (validate_google_sheet "sheetC" ["donor"] Option.none
        (.ok { spreadsheet_metadata :=
                 ⟨"T", "D", "U", Option.none, false⟩,
               worksheets :=
                 [{ dataColumns := ["donor_id", "manner_of_death"],
                    dataRows := [[.str "x", .str "x"], [.str "x", .str "x"],
                                 [.str "x", .str "x"], [.str "x", .str "x"],
                                 [.str "d1", .str "not_applicable"]],
                    worksheet_id := 11,
                    source_columns := ["donor_id", "manner_of_death"],
                    source_rows_start_index := 1 }] })
        (fun _ _ => Option.none) (fun _ => "donor_id")
        (fun cn rd =>
          if cn = "Donor" then
            match List.lookup "manner_of_death" rd with
            | some (.str "not_applicable") =>
              .ok (some [{ ctxRowIndex := Option.none,
                           ctxRowId := Option.none,
                           loc := ["manner_of_death"],
                           msg := "Input should be a valid option",
                           input := .str "not_applicable" }])
            | _ => .ok Option.none
          else .ok Option.none)).map
        (fun r => r.errors.map (fun e => e.input_fix))
      = .ok [Option.none] := by
  constructor
  · decide
  · decide

/-- C1 (amended). When the spreadsheet is not editable
(`can_edit = false` or no metadata), the fix-aware `process_google_sheet`
returns the `validate_google_sheet` result with fix resolution applied to
its errors and nothing else: equal `successful`, `error_code`, `summary`,
and `spreadsheet_metadata`; the error lists are equal except that `process`
populates `input_fix` where a fix is known; and no write is attempted. -/
theorem C1_process_noneditable (sheetId : String) (entityTypes : List String)
    (bionetwork : Option String) (info : SpreadsheetInfo)
    (reread : Except SheetReadError SpreadsheetInfo)
    (slotsOf : String → SlotMap) (idOf : String → String) (engine : Engine)
    (inducedAttrsOf : String → List String) (v : SheetValidationResult)
    (fixedErrors : List SheetErrorInfo)
    (hv : validate_google_sheet sheetId entityTypes bionetwork (.ok info)
      slotsOf idOf engine = .ok v)
    (hfix : add_fixes_to_errors v.errors bionetwork inducedAttrsOf
      = .ok fixedErrors)
    (hedit : ∀ m, v.spreadsheet_metadata = some m → m.can_edit = false) :
    process_google_sheet sheetId entityTypes bionetwork (.ok info) reread
        slotsOf idOf engine inducedAttrsOf
      = .ok ({ v with errors := fixedErrors }, [], false) ∧
    fixedErrors.map clearFix = v.errors ∧
    ({ v with errors := fixedErrors } : SheetValidationResult).successful
      = v.successful ∧
    ({ v with errors := fixedErrors } : SheetValidationResult).error_code
      = v.error_code ∧
    ({ v with errors := fixedErrors } : SheetValidationResult).summary
      = v.summary ∧
    ({ v with errors := fixedErrors } :
      SheetValidationResult).spreadsheet_metadata
      = v.spreadsheet_metadata := by
  refine ⟨?_, ?_, rfl, rfl, rfl, rfl⟩
  · unfold process_google_sheet
    dsimp only
    rw [hv]
    dsimp only
    rw [hfix]
    dsimp only
    cases hm : v.spreadsheet_metadata with
    | none => rfl
    | some m =>
      have hce := hedit m hm
      dsimp only
      rw [hce]
      rfl
  · have h1 := add_fixes_clearFix _ _ _ _ hfix
    have h2 : v.errors.map clearFix = v.errors := by
      have hnf := validate_google_sheet_no_fix _ _ _ _ _ _ _ _ hv
      calc v.errors.map clearFix
          = v.errors.map id := List.map_congr_left
            (fun e he => clearFix_eq_self e (hnf e he))
        _ = v.errors := List.map_id _
    rw [h1, h2]

/-- C1 witness: a clean non-editable donor sheet: `process` returns the
`validate` result unchanged (no errors, hence no fixes), with no write. -/
theorem C1_process_noneditable_witness :
    process_google_sheet "sheetW" ["donor"] Option.none
        (.ok { spreadsheet_metadata := ⟨"T", "D", "U", Option.none, false⟩,
               worksheets :=
                 [{ dataColumns := ["donor_id"],
                    dataRows := [[.str "x"], [.str "x"], [.str "x"],
                                 [.str "x"], [.str "d1"]],
                    worksheet_id := 11, source_columns := ["donor_id"],
                    source_rows_start_index := 1 }] })
        (.error { error_code := "api_error" })
        (fun _ _ => Option.none) (fun _ => "donor_id")
        (fun _ _ => .ok Option.none) (fun _ => [])
      = .ok ({ successful := true,
               spreadsheet_metadata :=
                 some ⟨"T", "D", "U", Option.none, false⟩,
               error_code := Option.none,
               summary := [("donor_count", some 1), ("error_count", some 0)],
               errors := [] }, [], false) :=
  (C1_process_noneditable "sheetW" ["donor"] Option.none
    { spreadsheet_metadata := ⟨"T", "D", "U", Option.none, false⟩,
      worksheets :=
        [{ dataColumns := ["donor_id"],
           dataRows := [[.str "x"], [.str "x"], [.str "x"], [.str "x"],
                        [.str "d1"]],
           worksheet_id := 11, source_columns := ["donor_id"],
           source_rows_start_index := 1 }] }
    (.error { error_code := "api_error" })
    (fun _ _ => Option.none) (fun _ => "donor_id")
    (fun _ _ => .ok Option.none) (fun _ => [])
    { successful := true,
      spreadsheet_metadata := some ⟨"T", "D", "U", Option.none, false⟩,
      error_code := Option.none,
      summary := [("donor_count", some 1), ("error_count", some 0)],
      errors := [] } []
    (by decide) (by decide)
    (fun m hm => by cases hm; rfl)).1

/-- C10. Whenever the fix-aware orchestrator actually issued writes
(`writes ≠ []`) and therefore re-validated, every error of the returned
result has `input_fix = None`: the second fix-resolution pass over the
re-validation's errors only feeds the non-convergence log flag, and its
output is discarded rather than merged into the returned result. -/
theorem C10_refix_output_discarded (sheetId : String)
    (entityTypes : List String) (bionetwork : Option String)
    (readResult rereadResult : Except SheetReadError SpreadsheetInfo)
    (slotsOf : String → SlotMap) (idOf : String → String) (engine : Engine)
    (inducedAttrsOf : String → List String) (r : SheetValidationResult)
    (writes : List (String × List ValueRange)) (anomaly : Bool)
    (hp : process_google_sheet sheetId entityTypes bionetwork readResult
      rereadResult slotsOf idOf engine inducedAttrsOf
      = .ok (r, writes, anomaly))
    (hw : writes ≠ []) :
    ∀ e ∈ r.errors, e.input_fix = Option.none := by
  unfold process_google_sheet at hp
  cases readResult with
  | error re =>
    simp only [Except.ok.injEq, Prod.mk.injEq] at hp
    exact absurd hp.2.1.symm hw
  | ok info =>
    dsimp only at hp
    cases hv0 : validate_google_sheet sheetId entityTypes bionetwork
        (.ok info) slotsOf idOf engine with
    | error m => rw [hv0] at hp; cases hp
    | ok vr0 =>
      rw [hv0] at hp
      dsimp only at hp
      cases hfx : add_fixes_to_errors vr0.errors bionetwork
          inducedAttrsOf with
      | error m => rw [hfx] at hp; cases hp
      | ok fixedErrors =>
        rw [hfx] at hp
        dsimp only at hp
        cases hm : vr0.spreadsheet_metadata with
        | none =>
          rw [hm] at hp
          simp only [Except.ok.injEq, Prod.mk.injEq] at hp
          exact absurd hp.2.1.symm hw
        | some meta =>
          rw [hm] at hp
          dsimp only at hp
          by_cases hce : meta.can_edit
          · rw [if_pos hce] at hp
            cases happ : apply_fixes
                { successful := vr0.successful,
                  spreadsheet_metadata := some meta,
                  error_code := vr0.error_code, summary := vr0.summary,
                  errors := fixedErrors } entityTypes with
            | error m => rw [happ] at hp; cases hp
            | ok mw =>
              rw [happ] at hp
              dsimp only at hp
              by_cases hmade : mw.1 = true
              · rw [if_pos hmade] at hp
                cases hv2 : validate_google_sheet sheetId entityTypes
                    bionetwork rereadResult slotsOf idOf engine with
                | error m => rw [hv2] at hp; cases hp
                | ok vr2 =>
                  rw [hv2] at hp
                  dsimp only at hp
                  cases hfx2 : add_fixes_to_errors vr2.errors bionetwork
                      inducedAttrsOf with
                  | error m => rw [hfx2] at hp; cases hp
                  | ok efi =>
                    rw [hfx2] at hp
                    simp only [Except.ok.injEq, Prod.mk.injEq] at hp
                    rw [← hp.1]
                    exact validate_google_sheet_no_fix _ _ _ _ _ _ _ _ hv2
              · rw [if_neg hmade] at hp
                simp only [Except.ok.injEq, Prod.mk.injEq] at hp
                have hshape := apply_fixes_shape _ _ mw.1 mw.2
                  (by rw [happ])
                have hmade2 : mw.1 = false := by
                  cases hb : mw.1
                  · rfl
                  · exact absurd hb hmade
                rw [hmade2] at hshape
                have hnil : mw.2 = [] := by
                  cases hmw2 : mw.2.isEmpty
                  · rw [hmw2] at hshape
                    simp at hshape
                  · exact List.isEmpty_iff.mp hmw2
                rw [hnil] at hp
                exact absurd hp.2.1.symm hw
          · rw [if_neg hce] at hp
            simp only [Except.ok.injEq, Prod.mk.injEq] at hp
            exact absurd hp.2.1.symm hw

/-- C10 witness: the editable donor sheet with the `manner_of_death` fix:
one write is issued (`B6 → "not applicable"`) and the re-validation (here a
`sheet_not_found` re-read) is returned with its error's `input_fix = None`. -/
theorem C10_refix_output_discarded_witness :
    ({ entity_type := Option.none, worksheet_id := Option.none,
       message := "Could not access or read data from sheet sheetC (Error: sheet_not_found)" } :
      SheetErrorInfo).input_fix = Option.none :=
  C10_refix_output_discarded "sheetC" ["donor"] Option.none
    (.ok { spreadsheet_metadata := ⟨"T", "D", "U", Option.none, true⟩,
           worksheets :=
             [{ dataColumns := ["donor_id", "manner_of_death"],
                dataRows := [[.str "x", .str "x"], [.str "x", .str "x"],
                             [.str "x", .str "x"], [.str "x", .str "x"],
                             [.str "d1", .str "not_applicable"]],
                worksheet_id := 11,
                source_columns := ["donor_id", "manner_of_death"],
                source_rows_start_index := 1 }] })
    (.error { error_code := "sheet_not_found" })
    (fun _ _ => Option.none) (fun _ => "donor_id")
    (fun cn rd =>
      if cn = "Donor" then
        match List.lookup "manner_of_death" rd with
        | some (.str "not_applicable") =>
          .ok (some [{ ctxRowIndex := Option.none, ctxRowId := Option.none,
                       loc := ["manner_of_death"],
                       msg := "Input should be a valid option",
                       input := .str "not_applicable" }])
        | _ => .ok Option.none
      else .ok Option.none)
    (fun _ => ["manner_of_death"])
    { successful := false, spreadsheet_metadata := Option.none,
      error_code := some "sheet_not_found",
      summary := [("donor_count", Option.none), ("error_count", some 1)],
      errors := [{ entity_type := Option.none, worksheet_id := Option.none,
                   message := "Could not access or read data from sheet sheetC (Error: sheet_not_found)" }] }
    [("donor", [{ range := "B6", values := [["not applicable"]] }])] false
    (by decide) (by decide) _ (by decide)

end HcaValidation
